import Mathlib

/-
Verification of the answer-sanitization and payload-construction core of the
audio-survey transcription relay in app/main.py, together with models of the
upload-validation and backend-submission phases of the POST /stt endpoint.

The Python code manipulates values produced by json.loads, so the embedding
works over a JSON value type with Python semantics: truthiness, the == that
identifies True with 1 and False with 0, dicts as insertion-ordered
association lists with string keys, and raising code modelled with Except.
-/

set_option autoImplicit false
set_option maxRecDepth 20000

/-- JSON-like values as produced by json.loads in app/main.py.  Objects carry
string keys in insertion order (json.loads only ever yields string keys), and
numbers are modelled as integers: no claim involves non-integral numerics, and
none of the operations the code performs (truthiness, equality with None and
with the empty string) distinguishes an integral float from an integer. -/
inductive JVal where
  | null : JVal
  | bool : Bool → JVal
  | num : Int → JVal
  | str : String → JVal
  | arr : List JVal → JVal
  | obj : List (String × JVal) → JVal

/-- Python truthiness of a JSON value: None, False, 0, "", [] and {} are
falsy, everything else is truthy. -/
def truthy : JVal → Bool
  | .null => false
  | .bool b => b
  | .num n => n != 0
  | .str s => s != ""
  | .arr xs => !xs.isEmpty
  | .obj kvs => !kvs.isEmpty

/-- Python == restricted to the values the code ever compares: scalars.
Python identifies booleans with the integers 0 and 1; None is only equal to
None; a list or dict is never compared by the code paths we model (unhashable
keys raise before any such comparison). -/
def pyEqVal : JVal → JVal → Bool
  | .null, .null => true
  | .bool a, .bool b => a == b
  | .bool a, .num n => (if a then (1 : Int) else 0) == n
  | .num n, .bool a => n == (if a then (1 : Int) else 0)
  | .num a, .num b => a == b
  | .str a, .str b => a == b
  | _, _ => false

/-- Whether a value may be used as a dict/set key in Python: lists and dicts
are unhashable and raise TypeError. -/
def hashableB : JVal → Bool
  | .arr _ => false
  | .obj _ => false
  | _ => true

/-- Lookup in a string-keyed object (Python dict.get with default None comes
from pairing this with getD). -/
def objGet : List (String × JVal) → String → Option JVal
  | [], _ => none
  | (k, v) :: rest, key => if k = key then some v else objGet rest key

/-- Python item.get(key): None when the key is absent.  This deliberately
identifies an absent key with a stored None, exactly as dict.get does. -/
def pyGet (kvs : List (String × JVal)) (k : String) : JVal :=
  (objGet kvs k).getD .null

/-- Python item[key] = v on a dict: update the value in place if the key
exists (keeping its position), else append the new pair at the end. -/
def objSet : List (String × JVal) → String → JVal → List (String × JVal)
  | [], key, v => [(key, v)]
  | (k, w) :: rest, key, v =>
    if k = key then (k, v) :: rest else (k, w) :: objSet rest key v

/-- Python item.pop(key): remove the (unique) binding of the key. -/
def objPop : List (String × JVal) → String → List (String × JVal)
  | [], _ => []
  | (k, w) :: rest, key => if k = key then rest else (k, w) :: objPop rest key

/-- The underlying pairs of an object value. -/
def objKvs : JVal → List (String × JVal)
  | .obj kvs => kvs
  | _ => []

/-- Lookup in a dict keyed by arbitrary (hashable) JSON values, with Python
equality; models mapa.get(qid). -/
def mapaGet : List (JVal × JVal) → JVal → Option JVal
  | [], _ => none
  | (k, v) :: rest, key => if pyEqVal k key then some v else mapaGet rest key

/-- Insertion into a dict keyed by JSON values: replace the value in place if
an equal key exists, else append; models the dict comprehension building mapa,
where a later pregunta with the same id overrides an earlier one. -/
def mapaInsert : List (JVal × JVal) → JVal → JVal → List (JVal × JVal)
  | [], k, v => [(k, v)]
  | (k', w) :: rest, k, v =>
    if pyEqVal k' k then (k', v) :: rest else (k', w) :: mapaInsert rest k v

/-- Python iteration over a value: lists yield their elements, strings yield
their characters as one-character strings, dicts yield their keys; anything
else raises TypeError. -/
def pyIter : JVal → Except String (List JVal)
  | .arr xs => .ok xs
  | .str s => .ok (s.data.map (fun c => .str (String.singleton c)))
  | .obj kvs => .ok (kvs.map (fun kv => .str kv.1))
  | _ => .error "TypeError: object is not iterable"

/-- Python value[0]: first element of a list, first character of a string;
a dict raises KeyError (json objects have no integer keys), anything else
raises TypeError. -/
def pySub0 : JVal → Except String JVal
  | .arr (x :: _) => .ok x
  | .arr [] => .error "IndexError: list index out of range"
  | .str s =>
    match s.data with
    | c :: _ => .ok (.str (String.singleton c))
    | [] => .error "IndexError: string index out of range"
  | .obj _ => .error "KeyError: 0"
  | _ => .error "TypeError: object is not subscriptable"

/-- Model of Python str.strip(): drop whitespace from both ends. -/
def pyStrip (s : String) : String :=
  String.mk ((s.data.dropWhile Char.isWhitespace).reverse.dropWhile Char.isWhitespace).reverse

/-- Model of Python str.lower() (characterwise lowering). -/
def pyLower (s : String) : String :=
  String.mk (s.data.map Char.toLower)

/- ──────────────── sanitize_answers (app/main.py lines 62-100) ──────────── -/

/-- The identifier-alias normalization at the top of the sanitize loop:
if not item.get("pregunta_id") and item.get("id"):
    item["pregunta_id"] = item.pop("id") -/
def aliasStep (kvs : List (String × JVal)) : List (String × JVal) :=
  if !truthy (pyGet kvs "pregunta_id") && truthy (pyGet kvs "id") then
    objSet (objPop kvs "id") "pregunta_id" (pyGet kvs "id")
  else kvs

/-- The tipo == 1 rule: if the answer text, stripped and lowered, equals the
question's own text lowered (missing question text reads as ""), the text is
cleared to None.  A truthy non-string text raises (str.strip on a non-string),
as does a non-dict question record or a non-string stored question text. -/
def tipo1Step (tipo preg : JVal) (kvs : List (String × JVal)) :
    Except String (List (String × JVal)) :=
  if pyEqVal tipo (.num 1) && truthy (pyGet kvs "texto") then
    match pyGet kvs "texto" with
    | .str t =>
      match preg with
      | .obj pkvs =>
        match (objGet pkvs "texto").getD (.str "") with
        | .str qt =>
          if pyLower (pyStrip t) = pyLower qt then .ok (objSet kvs "texto" .null)
          else .ok kvs
        | _ => .error "AttributeError: lower"
      | _ => .error "AttributeError: get"
    | _ => .error "AttributeError: strip"
  else .ok kvs

/-- The tipo == 2 rule: when a numero is present (is not None), the text is
cleared. -/
def tipo2Step (tipo : JVal) (kvs : List (String × JVal)) : List (String × JVal) :=
  if pyEqVal tipo (.num 2) && !(pyGet kvs "numero" matches .null) then
    objSet kvs "texto" .null
  else kvs

/-- The choice-extraction part of the tipo == 3 rule, applied to the entry
after its text was cleared: when opciones_ids is truthy its first element
becomes opcion_id and the list is emptied. -/
def tipo3Core (kvs1 : List (String × JVal)) : Except String (List (String × JVal)) :=
  if truthy (pyGet kvs1 "opciones_ids") then
    match pySub0 (pyGet kvs1 "opciones_ids") with
    | .ok first => .ok (objSet (objSet kvs1 "opcion_id" first) "opciones_ids" (.arr []))
    | .error e => .error e
  else .ok kvs1

/-- The tipo == 3 rule: text is cleared unconditionally, then the first
provided choice id (if any) becomes the single choice. -/
def tipo3Step (tipo : JVal) (kvs : List (String × JVal)) :
    Except String (List (String × JVal)) :=
  if pyEqVal tipo (.num 3) then tipo3Core (objSet kvs "texto" .null)
  else .ok kvs

/-- The set comprehension building the valid option-id set of a question:
collects o["id"] of every option, raising if an option is not a dict, lacks
an id, or carries an unhashable id.  Order and duplicates are irrelevant
because the set is only used for membership tests. -/
def optionIds : List JVal → Except String (List JVal)
  | [] => .ok []
  | o :: rest =>
    match o with
    | .obj okvs =>
      match objGet okvs "id" with
      | some k =>
        if hashableB k then
          match optionIds rest with
          | .ok tail => .ok (k :: tail)
          | .error e => .error e
        else .error "TypeError: unhashable type"
      | none => .error "KeyError: id"
    | _ => .error "TypeError: indices must be integers"

/-- The list comprehension filtering opciones_ids against the valid set;
an unhashable element raises (x in set hashes x). -/
def filterValid (valid : List JVal) : List JVal → Except String (List JVal)
  | [] => .ok []
  | oid :: rest =>
    if hashableB oid then
      match filterValid valid rest with
      | .ok tail =>
        .ok (if valid.any (fun k => pyEqVal oid k) then oid :: tail else tail)
      | .error e => .error e
    else .error "TypeError: unhashable type"

/-- The filtering part of the tipo == 4 rule, applied to the entry after its
text was cleared: the valid option-id set is collected from the question and
opciones_ids is filtered against it. -/
def tipo4Core (preg : JVal) (kvs1 : List (String × JVal)) :
    Except String (List (String × JVal)) :=
  match preg with
  | .obj pkvs =>
    match pyIter ((objGet pkvs "opciones").getD (.arr [])) with
    | .ok os =>
      match optionIds os with
      | .ok valid =>
        match pyIter ((objGet kvs1 "opciones_ids").getD (.arr [])) with
        | .ok oids =>
          match filterValid valid oids with
          | .ok kept => .ok (objSet kvs1 "opciones_ids" (.arr kept))
          | .error e => .error e
        | .error e => .error e
      | .error e => .error e
    | .error e => .error e
  | _ => .error "AttributeError: get"

/-- The tipo == 4 rule: text is cleared unconditionally; opciones_ids is
filtered down to the ids present in the question's declared option set,
preserving order. -/
def tipo4Step (tipo preg : JVal) (kvs : List (String × JVal)) :
    Except String (List (String × JVal)) :=
  if pyEqVal tipo (.num 4) then tipo4Core preg (objSet kvs "texto" .null)
  else .ok kvs

/-- One iteration of the sanitize loop body over a raw answer entry:
normalize the identifier alias, skip the entry when no truthy pregunta_id
resolves (continue), look the question up in mapa (an unhashable id raises,
a missing or falsy question record degrades to the empty dict), and apply
the four type rules in order.  Returns none for a skipped entry. -/
def sanitizeItem (mapa : List (JVal × JVal)) (item : JVal) :
    Except String (Option JVal) :=
  match item with
  | .obj kvs0 =>
    let kvs := aliasStep kvs0
    let qid := pyGet kvs "pregunta_id"
    if truthy qid then
      if hashableB qid then
        let tipo := pyGet kvs "tipo_pregunta_id"
        let preg :=
          match mapaGet mapa qid with
          | some v => if truthy v then v else .obj []
          | none => .obj []
        match tipo1Step tipo preg kvs with
        | .ok kvs1 =>
          let kvs2 := tipo2Step tipo kvs1
          match tipo3Step tipo kvs2 with
          | .ok kvs3 =>
            match tipo4Step tipo preg kvs3 with
            | .ok kvs4 => .ok (some (.obj kvs4))
            | .error e => .error e
          | .error e => .error e
        | .error e => .error e
      else .error "TypeError: unhashable type"
    else .ok none
  | _ => .error "AttributeError: get"

/-- The dict comprehension mapa = {p["id"]: p for p in plantilla["preguntas"]}
over an already-extracted question list. -/
def buildMapaList : List JVal → List (JVal × JVal) → Except String (List (JVal × JVal))
  | [], mapa => .ok mapa
  | p :: rest, mapa =>
    match p with
    | .obj pkvs =>
      match objGet pkvs "id" with
      | some k =>
        if hashableB k then buildMapaList rest (mapaInsert mapa k p)
        else .error "TypeError: unhashable type"
      | none => .error "KeyError: id"
    | _ => .error "TypeError: indices must be integers"

/-- mapa = {p["id"]: p for p in plantilla["preguntas"]}: plantilla["preguntas"]
raises KeyError when absent and TypeError when plantilla is not a dict. -/
def buildMapa (plantilla : JVal) : Except String (List (JVal × JVal)) :=
  match plantilla with
  | .obj pkvs =>
    match objGet pkvs "preguntas" with
    | some v =>
      match pyIter v with
      | .ok ps => buildMapaList ps []
      | .error e => .error e
    | none => .error "KeyError: preguntas"
  | _ => .error "TypeError: object is not subscriptable"

/-- The sanitize loop: dep collects the entries that survive, in order. -/
def sanitizeList (mapa : List (JVal × JVal)) :
    List JVal → List JVal → Except String (List JVal)
  | [], acc => .ok acc
  | it :: rest, acc =>
    match sanitizeItem mapa it with
    | .ok (some o) => sanitizeList mapa rest (acc ++ [o])
    | .ok none => sanitizeList mapa rest acc
    | .error e => .error e

/-- sanitize_answers (app/main.py lines 62-100): build mapa from the template,
walk data.get("respuestas_preguntas", []), and store the surviving entries
back under respuestas_preguntas.  Failure values model the exceptions Python
would raise. -/
def sanitize_answers (data plantilla : JVal) : Except String JVal :=
  match buildMapa plantilla with
  | .ok mapa =>
    match data with
    | .obj dkvs =>
      match pyIter ((objGet dkvs "respuestas_preguntas").getD (.arr [])) with
      | .ok items =>
        match sanitizeList mapa items [] with
        | .ok dep => .ok (.obj (objSet dkvs "respuestas_preguntas" (.arr dep)))
        | .error e => .error e
      | .error e => .error e
    | _ => .error "AttributeError: get"
  | .error e => .error e

/- ─────────── build_backend_payload (app/main.py lines 102-120) ─────────── -/

/-- Membership of r.get("numero") in the tuple (None, ""): the values whose
presence omits numero from the base row.  Note 0 equals neither. -/
def numeroOmitted (v : JVal) : Bool :=
  pyEqVal v .null || pyEqVal v (.str "")

/-- The base record of one answer row: pregunta_id always, texto when truthy,
numero unless it is None or "", opcion_id when truthy. -/
def rowBase (rk : List (String × JVal)) (qid : JVal) : List (String × JVal) :=
  let b0 := [("pregunta_id", qid)]
  let b1 := if truthy (pyGet rk "texto") then objSet b0 "texto" (pyGet rk "texto") else b0
  let b2 := if numeroOmitted (pyGet rk "numero") then b1 else objSet b1 "numero" (pyGet rk "numero")
  if truthy (pyGet rk "opcion_id") then objSet b2 "opcion_id" (pyGet rk "opcion_id") else b2

/-- The rows one answer contributes: when opciones_ids is truthy, one clone of
the base per id with opcion_id overridden, else the single base row.
r["pregunta_id"] raises KeyError when absent, and a non-dict entry raises. -/
def rowsFor (r : JVal) : Except String (List JVal) :=
  match r with
  | .obj rk =>
    match objGet rk "pregunta_id" with
    | some qid =>
      let base := rowBase rk qid
      if truthy (pyGet rk "opciones_ids") then
        match pyIter (pyGet rk "opciones_ids") with
        | .ok oids => .ok (oids.map (fun oid => .obj (objSet base "opcion_id" oid)))
        | .error e => .error e
      else .ok [.obj base]
    | none => .error "KeyError: pregunta_id"
  | _ => .error "AttributeError: get"

/-- The filas loop of build_backend_payload. -/
def buildRows : List JVal → List JVal → Except String (List JVal)
  | [], acc => .ok acc
  | r :: rest, acc =>
    match rowsFor r with
    | .ok rows => buildRows rest (acc ++ rows)
    | .error e => .error e

/-- build_backend_payload (app/main.py lines 102-120). -/
def build_backend_payload (res_json : JVal) : Except String JVal :=
  match res_json with
  | .obj kvs =>
    match pyIter ((objGet kvs "respuestas_preguntas").getD (.arr [])) with
    | .ok items =>
      match buildRows items [] with
      | .ok filas => .ok (.obj [("respuestas_preguntas", .arr filas)])
      | .error e => .error e
    | .error e => .error e
  | _ => .error "AttributeError: get"

/- ──────────── POST /stt upload validation (lines 122-133) ──────────────── -/

/-- Fuelled removal of every non-overlapping occurrence of a pattern from a
character list, scanning left to right; the fuel is the list length, which
always suffices. -/
def removeAllAux (pat : List Char) : Nat → List Char → List Char
  | 0, l => l
  | _ + 1, [] => []
  | n + 1, c :: rest =>
    if pat.isPrefixOf (c :: rest) then removeAllAux pat n (List.drop (pat.length - 1) rest)
    else c :: removeAllAux pat n rest

/-- Python s.replace(pat, "") for a non-empty pattern. -/
def removeAll (pat l : List Char) : List Char :=
  removeAllAux pat l.length l

def isBraceChar (c : Char) : Bool := c == '{' || c == '}'

/-- Python s.strip("{}"): drop leading and trailing brace characters. -/
def stripBraces (l : List Char) : List Char :=
  ((l.dropWhile isBraceChar).reverse.dropWhile isBraceChar).reverse

def isHexChar (c : Char) : Bool :=
  c.isDigit || ('a' ≤ c && c ≤ 'f') || ('A' ≤ c && c ≤ 'F')

/-- Model of Python uuid.UUID(s) string acceptance, per its documented
behavior: remove the substrings "urn:" and then "uuid:", strip surrounding
braces, remove every dash, and require exactly 32 hexadecimal digits. -/
def pyUUIDParses (s : String) : Bool :=
  let l := removeAll "uuid:".data (removeAll "urn:".data s.data)
  let l := (stripBraces l).filter (fun c => c != '-')
  l.length == 32 && l.all isHexChar

/-- filename.split(".")[0]: the maximal prefix before the first dot (the whole
filename when it contains no dot). -/
def entregaIdOf (fn : String) : String :=
  String.mk (fn.data.takeWhile (fun c => c != '.'))

/-- file.content_type.startswith("audio/"). -/
def isAudioContentType (ct : String) : Bool :=
  "audio/".data.isPrefixOf ct.data

/-- The upload-validation phase of POST /stt (app/main.py lines 122-133):
HTTP 400 when the content type does not start with audio/, else 400 when the
part of the filename before its first dot does not parse as a UUID, else the
request proceeds with that prefix as entrega_id. -/
def sttValidate (content_type filename : String) : Except Nat String :=
  if !isAudioContentType content_type then .error 400
  else if pyUUIDParses (entregaIdOf filename) then .ok (entregaIdOf filename)
  else .error 400

/-- Modelled from the spec: its description of an acceptable filename — of
the form delivery-id.ext where delivery-id parses as a UUID.  Used to compare
the spec's wording with what sttValidate actually accepts. -/
def isDeliveryFilenameForm (fn : String) : Prop :=
  ∃ idp ext, fn = idp ++ "." ++ ext ∧ pyUUIDParses idp = true

/- ───────── backend submission step of POST /stt (lines 174-187) ────────── -/

/-- The outcome of requests.post on the backend submission: either an
exception was raised (connection error, timeout, redirect loop, ...), or a
final HTTP response arrived, carrying a status and a body whose JSON decoding
either succeeds or fails. -/
inductive PostOutcome where
  | raised : String → PostOutcome
  | responded : Nat → Except String JVal → PostOutcome

/-- The message of the requests.HTTPError that raise_for_status raises on a
4xx or 5xx status. -/
def httpErrorMessage (status : Nat) : String :=
  "HTTP error " ++ toString status

/-- The try/except around the backend submission (app/main.py lines 174-180):
any exception — from the POST itself, from raise_for_status (which raises
exactly on statuses in [400, 600)), or from JSON-decoding the body — is
swallowed and replaced by {"error": str(exc), "payload_enviado": payload};
otherwise the backend's decoded reply is used verbatim. -/
def submitBackend (payload : JVal) (outcome : PostOutcome) : JVal :=
  match outcome with
  | .raised msg => .obj [("error", .str msg), ("payload_enviado", payload)]
  | .responded status body =>
    if 400 ≤ status && status < 600 then
      .obj [("error", .str (httpErrorMessage status)), ("payload_enviado", payload)]
    else
      match body with
      | .ok j => j
      | .error e => .obj [("error", .str e), ("payload_enviado", payload)]

/-- The JSONResponse the endpoint returns once the submission step is reached
(app/main.py lines 182-187), paired with its 200 status code. -/
def sttResponse (entrega_id transcript : String) (payload : JVal)
    (outcome : PostOutcome) : Nat × JVal :=
  (200, .obj [("entrega_id", .str entrega_id),
              ("transcripcion", .str transcript),
              ("payload_enviado", payload),
              ("respuesta_backend", submitBackend payload outcome)])

/- ───────────── well-formedness for the totality statement ──────────────── -/

def strOrNull (v : JVal) : Bool :=
  match v with
  | .str _ => true
  | .null => true
  | _ => false

def strOrMissing (v : Option JVal) : Bool :=
  match v with
  | some (.str _) => true
  | none => true
  | some _ => false

def optIsArrOf (p : JVal → Bool) (v : Option JVal) : Bool :=
  match v with
  | some (.arr xs) => xs.all p
  | none => true
  | some _ => false

def hasHashableId (kvs : List (String × JVal)) : Bool :=
  match objGet kvs "id" with
  | some k => hashableB k
  | none => false

def wfOption (o : JVal) : Bool :=
  match o with
  | .obj okvs => hasHashableId okvs
  | _ => false

def wfQuestion (p : JVal) : Bool :=
  match p with
  | .obj pkvs =>
    hasHashableId pkvs && strOrMissing (objGet pkvs "texto") &&
      optIsArrOf wfOption (objGet pkvs "opciones")
  | _ => false

def wfItem (it : JVal) : Bool :=
  match it with
  | .obj kvs =>
    hashableB (pyGet kvs "pregunta_id") && hashableB (pyGet kvs "id") &&
      strOrNull (pyGet kvs "texto") &&
      optIsArrOf hashableB (objGet kvs "opciones_ids")
  | _ => false

def wfData (d : JVal) : Bool :=
  match d with
  | .obj dkvs =>
    match objGet dkvs "respuestas_preguntas" with
    | some (.arr its) => its.all wfItem
    | none => true
    | some _ => false
  | _ => false

def wfPlantilla (pl : JVal) : Bool :=
  match pl with
  | .obj pkvs =>
    match objGet pkvs "preguntas" with
    | some (.arr ps) => ps.all wfQuestion
    | _ => false
  | _ => false

/- ─────────────────────── basic object lemmas ───────────────────────────── -/

theorem objGet_objSet_self (kvs : List (String × JVal)) (k : String) (v : JVal) :
    objGet (objSet kvs k v) k = some v := by
  induction kvs with
  | nil => simp [objSet, objGet]
  | cons kv rest ih =>
    obtain ⟨k', w⟩ := kv
    by_cases h : k' = k <;> simp [objSet, objGet, h, ih]

theorem objGet_objSet_ne (kvs : List (String × JVal)) (k k' : String) (v : JVal)
    (h : k' ≠ k) : objGet (objSet kvs k v) k' = objGet kvs k' := by
  induction kvs with
  | nil => simp [objSet, objGet, Ne.symm h]
  | cons kv rest ih =>
    obtain ⟨k0, w⟩ := kv
    by_cases h0 : k0 = k
    · subst h0
      simp [objSet, objGet, h, Ne.symm h]
    · by_cases h1 : k0 = k' <;> simp [objSet, objGet, h0, h1, ih, h, Ne.symm h]

theorem objGet_objPop_ne (kvs : List (String × JVal)) (k k' : String)
    (h : k' ≠ k) : objGet (objPop kvs k) k' = objGet kvs k' := by
  induction kvs with
  | nil => simp [objPop, objGet]
  | cons kv rest ih =>
    obtain ⟨k0, w⟩ := kv
    by_cases h0 : k0 = k
    · subst h0
      simp [objPop, objGet, Ne.symm h]
    · by_cases h1 : k0 = k' <;> simp [objPop, objGet, h0, h1, ih, h, Ne.symm h]

theorem pyGet_objSet_self (kvs : List (String × JVal)) (k : String) (v : JVal) :
    pyGet (objSet kvs k v) k = v := by
  simp [pyGet, objGet_objSet_self]

theorem pyGet_objSet_ne (kvs : List (String × JVal)) (k k' : String) (v : JVal)
    (h : k' ≠ k) : pyGet (objSet kvs k v) k' = pyGet kvs k' := by
  simp [pyGet, objGet_objSet_ne _ _ _ _ h]

/- ─────────────────────── aliasStep lemmas ──────────────────────────────── -/

theorem aliasStep_of_truthy (kvs : List (String × JVal))
    (h : truthy (pyGet kvs "pregunta_id") = true) : aliasStep kvs = kvs := by
  simp [aliasStep, h]

theorem objGet_aliasStep_ne (kvs : List (String × JVal)) (k : String)
    (h1 : k ≠ "pregunta_id") (h2 : k ≠ "id") :
    objGet (aliasStep kvs) k = objGet kvs k := by
  unfold aliasStep
  split
  · rw [objGet_objSet_ne _ _ _ _ h1, objGet_objPop_ne _ _ _ h2]
  · rfl

theorem pyGet_aliasStep_ne (kvs : List (String × JVal)) (k : String)
    (h1 : k ≠ "pregunta_id") (h2 : k ≠ "id") :
    pyGet (aliasStep kvs) k = pyGet kvs k := by
  simp [pyGet, objGet_aliasStep_ne _ _ h1 h2]

/- ─────────────────── shape lemmas for the four type rules ──────────────── -/

theorem tipo1Step_cases {tipo preg : JVal} {kvs kvs' : List (String × JVal)}
    (h : tipo1Step tipo preg kvs = .ok kvs') :
    kvs' = kvs ∨ kvs' = objSet kvs "texto" JVal.null := by
  unfold tipo1Step at h
  split at h
  · split at h
    · split at h
      · split at h
        · split at h <;> simp_all
        · simp_all
      · simp_all
    · simp_all
  · simp_all

theorem tipo2Step_cases (tipo : JVal) (kvs : List (String × JVal)) :
    tipo2Step tipo kvs = kvs ∨ tipo2Step tipo kvs = objSet kvs "texto" JVal.null := by
  unfold tipo2Step
  split <;> simp

theorem tipo3Core_cases {kvs1 kvs' : List (String × JVal)}
    (h : tipo3Core kvs1 = .ok kvs') :
    kvs' = kvs1 ∨
    ∃ first, kvs' = objSet (objSet kvs1 "opcion_id" first) "opciones_ids" (.arr []) := by
  unfold tipo3Core at h
  split at h
  · split at h
    · rw [Except.ok.injEq] at h
      exact Or.inr ⟨_, h.symm⟩
    · simp_all
  · simp_all

theorem tipo3Step_cases {tipo : JVal} {kvs kvs' : List (String × JVal)}
    (h : tipo3Step tipo kvs = .ok kvs') :
    kvs' = kvs ∨ kvs' = objSet kvs "texto" JVal.null ∨
    ∃ first, kvs' =
      objSet (objSet (objSet kvs "texto" JVal.null) "opcion_id" first)
        "opciones_ids" (.arr []) := by
  unfold tipo3Step at h
  split at h
  · rcases tipo3Core_cases h with h1 | ⟨first, h1⟩
    · exact Or.inr (Or.inl h1)
    · exact Or.inr (Or.inr ⟨first, h1⟩)
  · simp_all

theorem tipo4Core_cases {preg : JVal} {kvs1 kvs' : List (String × JVal)}
    (h : tipo4Core preg kvs1 = .ok kvs') :
    ∃ kept, kvs' = objSet kvs1 "opciones_ids" (.arr kept) := by
  unfold tipo4Core at h
  split at h
  · split at h
    · split at h
      · split at h
        · split at h
          · rw [Except.ok.injEq] at h
            exact ⟨_, h.symm⟩
          · simp_all
        · simp_all
      · simp_all
    · simp_all
  · simp_all

theorem tipo4Step_cases {tipo preg : JVal} {kvs kvs' : List (String × JVal)}
    (h : tipo4Step tipo preg kvs = .ok kvs') :
    kvs' = kvs ∨
    ∃ kept, kvs' = objSet (objSet kvs "texto" JVal.null) "opciones_ids" (.arr kept) := by
  unfold tipo4Step at h
  split at h
  · exact Or.inr (tipo4Core_cases h)
  · simp_all

theorem sanitizeItem_shape {mapa : List (JVal × JVal)} {kvs0 : List (String × JVal)}
    {out : JVal} (h : sanitizeItem mapa (.obj kvs0) = .ok (some out)) :
    ∃ kvs1 kvs3 kvs4,
      tipo1Step (pyGet (aliasStep kvs0) "tipo_pregunta_id")
        (match mapaGet mapa (pyGet (aliasStep kvs0) "pregunta_id") with
         | some v => if truthy v then v else .obj []
         | none => .obj []) (aliasStep kvs0) = .ok kvs1 ∧
      tipo3Step (pyGet (aliasStep kvs0) "tipo_pregunta_id")
        (tipo2Step (pyGet (aliasStep kvs0) "tipo_pregunta_id") kvs1) = .ok kvs3 ∧
      tipo4Step (pyGet (aliasStep kvs0) "tipo_pregunta_id")
        (match mapaGet mapa (pyGet (aliasStep kvs0) "pregunta_id") with
         | some v => if truthy v then v else .obj []
         | none => .obj []) kvs3 = .ok kvs4 ∧
      out = .obj kvs4 := by
  simp only [sanitizeItem] at h
  split at h
  · split at h
    · split at h
      · rename_i kvs1 heq1
        split at h
        · rename_i kvs3 heq3
          split at h
          · rename_i kvs4 heq4
            rw [Except.ok.injEq, Option.some.injEq] at h
            exact ⟨kvs1, kvs3, kvs4, heq1, heq3, heq4, h.symm⟩
          · exact absurd h (by simp)
        · exact absurd h (by simp)
      · exact absurd h (by simp)
    · exact absurd h (by simp)
  · exact absurd h (by simp)

theorem tipo1Step_ne (tipo preg : JVal) (kvs : List (String × JVal))
    (h : pyEqVal tipo (.num 1) = false) : tipo1Step tipo preg kvs = .ok kvs := by
  simp [tipo1Step, h]

theorem tipo2Step_ne (tipo : JVal) (kvs : List (String × JVal))
    (h : pyEqVal tipo (.num 2) = false) : tipo2Step tipo kvs = kvs := by
  simp [tipo2Step, h]

theorem tipo3Step_ne (tipo : JVal) (kvs : List (String × JVal))
    (h : pyEqVal tipo (.num 3) = false) : tipo3Step tipo kvs = .ok kvs := by
  simp [tipo3Step, h]

theorem tipo4Step_ne (tipo preg : JVal) (kvs : List (String × JVal))
    (h : pyEqVal tipo (.num 4) = false) : tipo4Step tipo preg kvs = .ok kvs := by
  simp [tipo4Step, h]

/-- Claim C1, amended: sanitize_answers does not establish a one-active-field
invariant.  What holds instead: for every surviving entry the numero field is
preserved verbatim (no type rule ever clears it); for declared types 3 and 4
the texto field is cleared to null; and for a NUMERIC (type 2) entry the
opcion_id and opciones_ids fields are left exactly as provided — so, as the
counterexample shows, a type 2 entry can keep numero, opcion_id and a
non-empty opciones_ids active at once. -/
theorem sanitize_only_clears_texto
    (mapa : List (JVal × JVal)) (kvs0 : List (String × JVal)) (out : JVal)
    (h : sanitizeItem mapa (.obj kvs0) = .ok (some out)) :
    ∃ kvs4, out = .obj kvs4 ∧
      pyGet kvs4 "numero" = pyGet kvs0 "numero" ∧
      ((pyGet kvs0 "tipo_pregunta_id" = .num 3 ∨ pyGet kvs0 "tipo_pregunta_id" = .num 4) →
        pyGet kvs4 "texto" = .null) ∧
      (pyGet kvs0 "tipo_pregunta_id" = .num 2 →
        pyGet kvs4 "opcion_id" = pyGet kvs0 "opcion_id" ∧
        pyGet kvs4 "opciones_ids" = pyGet kvs0 "opciones_ids") := by
  obtain ⟨kvs1, kvs3, kvs4, heq1, heq3, heq4, hout⟩ := sanitizeItem_shape h
  have hnTex : ("numero" : String) ≠ "texto" := by decide
  have hnOpc : ("numero" : String) ≠ "opcion_id" := by decide
  have hnOps : ("numero" : String) ≠ "opciones_ids" := by decide
  set tipo := pyGet (aliasStep kvs0) "tipo_pregunta_id" with htdef
  have htv : tipo = pyGet kvs0 "tipo_pregunta_id" :=
    pyGet_aliasStep_ne _ _ (by decide) (by decide)
  have hnum1 : pyGet kvs1 "numero" = pyGet kvs0 "numero" := by
    rcases tipo1Step_cases heq1 with rfl | rfl
    · exact pyGet_aliasStep_ne _ _ (by decide) (by decide)
    · rw [pyGet_objSet_ne _ _ _ _ hnTex]
      exact pyGet_aliasStep_ne _ _ (by decide) (by decide)
  have hnum2 : pyGet (tipo2Step tipo kvs1) "numero" = pyGet kvs1 "numero" := by
    rcases tipo2Step_cases tipo kvs1 with h2 | h2 <;> rw [h2]
    · exact pyGet_objSet_ne _ _ _ _ hnTex
  have hnum3 : pyGet kvs3 "numero" = pyGet (tipo2Step tipo kvs1) "numero" := by
    rcases tipo3Step_cases heq3 with rfl | rfl | ⟨f, rfl⟩
    · rfl
    · exact pyGet_objSet_ne _ _ _ _ hnTex
    · rw [pyGet_objSet_ne _ _ _ _ hnOps, pyGet_objSet_ne _ _ _ _ hnOpc,
          pyGet_objSet_ne _ _ _ _ hnTex]
  have hnum4 : pyGet kvs4 "numero" = pyGet kvs3 "numero" := by
    rcases tipo4Step_cases heq4 with rfl | ⟨kept, rfl⟩
    · rfl
    · rw [pyGet_objSet_ne _ _ _ _ hnOps, pyGet_objSet_ne _ _ _ _ hnTex]
  refine ⟨kvs4, hout, by rw [hnum4, hnum3, hnum2, hnum1], ?_, ?_⟩
  · intro htipo
    have hTexOpc : ("texto" : String) ≠ "opcion_id" := by decide
    have hTexOps : ("texto" : String) ≠ "opciones_ids" := by decide
    rcases htipo with h3 | h4
    · have ht : tipo = .num 3 := htv.trans h3
      have hk43 : kvs4 = kvs3 := by
        rw [ht] at heq4
        unfold tipo4Step at heq4
        rw [if_neg (by decide)] at heq4
        exact ((Except.ok.injEq _ _).mp heq4).symm
      rw [ht] at heq3
      unfold tipo3Step at heq3
      rw [if_pos (by decide)] at heq3
      rcases tipo3Core_cases heq3 with rfl | ⟨f, rfl⟩
      · rw [hk43, pyGet_objSet_self]
      · rw [hk43, pyGet_objSet_ne _ _ _ _ hTexOps, pyGet_objSet_ne _ _ _ _ hTexOpc,
            pyGet_objSet_self]
    · have ht : tipo = .num 4 := htv.trans h4
      rw [ht] at heq4
      unfold tipo4Step at heq4
      rw [if_pos (by decide)] at heq4
      obtain ⟨kept, rfl⟩ := tipo4Core_cases heq4
      rw [pyGet_objSet_ne _ _ _ _ hTexOps, pyGet_objSet_self]
  · intro ht2
    have ht : tipo = .num 2 := htv.trans ht2
    rw [ht] at heq1 heq3 heq4
    have hk1 : kvs1 = aliasStep kvs0 :=
      ((Except.ok.injEq _ _).mp
        (heq1.symm.trans (tipo1Step_ne (JVal.num 2) _ _ (by decide))))
    have hk3 : kvs3 = tipo2Step (JVal.num 2) kvs1 :=
      ((Except.ok.injEq _ _).mp
        (heq3.symm.trans (tipo3Step_ne (JVal.num 2) _ (by decide))))
    have hk4 : kvs4 = kvs3 :=
      ((Except.ok.injEq _ _).mp
        (heq4.symm.trans (tipo4Step_ne (JVal.num 2) _ _ (by decide))))
    constructor
    · rw [hk4, hk3]
      rcases tipo2Step_cases (JVal.num 2) kvs1 with h2c | h2c <;> rw [h2c]
      · rw [hk1]
        exact pyGet_aliasStep_ne _ _ (by decide) (by decide)
      · rw [pyGet_objSet_ne _ _ _ _ (by decide), hk1]
        exact pyGet_aliasStep_ne _ _ (by decide) (by decide)
    · rw [hk4, hk3]
      rcases tipo2Step_cases (JVal.num 2) kvs1 with h2c | h2c <;> rw [h2c]
      · rw [hk1]
        exact pyGet_aliasStep_ne _ _ (by decide) (by decide)
      · rw [pyGet_objSet_ne _ _ _ _ (by decide), hk1]
        exact pyGet_aliasStep_ne _ _ (by decide) (by decide)

theorem truthy_obj_ne_nil (qkvs : List (String × JVal)) (h : qkvs ≠ []) :
    truthy (.obj qkvs) = true := by
  cases qkvs with
  | nil => exact absurd rfl h
  | cons a l => rfl

theorem sanitizeItem_eq_of_steps (mapa : List (JVal × JVal)) (kvs : List (String × JVal))
    (preg : JVal) (kvs1 kvs3 kvs4 : List (String × JVal))
    (hT : truthy (pyGet (aliasStep kvs) "pregunta_id") = true)
    (hH : hashableB (pyGet (aliasStep kvs) "pregunta_id") = true)
    (hpreg : (match mapaGet mapa (pyGet (aliasStep kvs) "pregunta_id") with
              | some v => if truthy v = true then v else JVal.obj []
              | none => JVal.obj []) = preg)
    (h1 : tipo1Step (pyGet (aliasStep kvs) "tipo_pregunta_id") preg (aliasStep kvs) = .ok kvs1)
    (h3 : tipo3Step (pyGet (aliasStep kvs) "tipo_pregunta_id")
            (tipo2Step (pyGet (aliasStep kvs) "tipo_pregunta_id") kvs1) = .ok kvs3)
    (h4 : tipo4Step (pyGet (aliasStep kvs) "tipo_pregunta_id") preg kvs3 = .ok kvs4) :
    sanitizeItem mapa (.obj kvs) = .ok (some (.obj kvs4)) := by
  simp only [sanitizeItem, hT, hH, if_true, hpreg, h1, h3, h4]

/-- Claim C4: for a raw answer whose identifier resolves to a FREE_TEXT
(type 1) question and whose provided text, stripped and lowered, equals the
lowered question text from the template, the normalized text is empty (null
when the provided text was truthy, the empty string when it already was
empty). -/
theorem sanitize_free_text_echo (mapa : List (JVal × JVal))
    (kvs qkvs : List (String × JVal)) (t qt : String)
    (hT : truthy (pyGet kvs "pregunta_id") = true)
    (hH : hashableB (pyGet kvs "pregunta_id") = true)
    (hres : mapaGet mapa (pyGet kvs "pregunta_id") = some (.obj qkvs))
    (hqne : qkvs ≠ [])
    (htip : pyGet kvs "tipo_pregunta_id" = .num 1)
    (htex : pyGet kvs "texto" = .str t)
    (hqt : objGet qkvs "texto" = some (.str qt))
    (heq : pyLower (pyStrip t) = pyLower qt) :
    ∃ kvs', sanitizeItem mapa (.obj kvs) = .ok (some (.obj kvs')) ∧
      (pyGet kvs' "texto" = .null ∨ pyGet kvs' "texto" = .str "") := by
  have halias : aliasStep kvs = kvs := aliasStep_of_truthy kvs hT
  have hpreg : (match mapaGet mapa (pyGet (aliasStep kvs) "pregunta_id") with
                | some v => if truthy v = true then v else JVal.obj []
                | none => JVal.obj []) = JVal.obj qkvs := by
    rw [halias, hres]
    simp [truthy_obj_ne_nil qkvs hqne]
  by_cases ht0 : t = ""
  · subst ht0
    refine ⟨kvs, ?_, Or.inr htex⟩
    refine sanitizeItem_eq_of_steps mapa kvs (JVal.obj qkvs) kvs kvs kvs
      (by rw [halias]; exact hT) (by rw [halias]; exact hH) hpreg ?_ ?_ ?_
    · rw [halias, htip]
      unfold tipo1Step
      rw [htex]
      rw [if_neg (by decide)]
    · rw [halias, htip, tipo2Step_ne _ _ (by decide), tipo3Step_ne _ _ (by decide)]
    · rw [halias, htip, tipo4Step_ne _ _ _ (by decide)]
  · refine ⟨objSet kvs "texto" .null, ?_, Or.inl (pyGet_objSet_self _ _ _)⟩
    refine sanitizeItem_eq_of_steps mapa kvs (JVal.obj qkvs) (objSet kvs "texto" .null)
      (objSet kvs "texto" .null) (objSet kvs "texto" .null)
      (by rw [halias]; exact hT) (by rw [halias]; exact hH) hpreg ?_ ?_ ?_
    · rw [halias, htip]
      unfold tipo1Step
      rw [htex]
      have htru : (pyEqVal (JVal.num 1) (JVal.num 1) && truthy (JVal.str t)) = true := by
        simp [pyEqVal, truthy, ht0]
      rw [if_pos htru]
      simp only [hqt, Option.getD_some]
      rw [if_pos heq]
    · rw [halias, htip, tipo2Step_ne _ _ (by decide), tipo3Step_ne _ _ (by decide)]
    · rw [halias, htip, tipo4Step_ne _ _ _ (by decide)]

theorem filterValid_ok (valid : List JVal) (xs : List JVal)
    (h : ∀ x ∈ xs, hashableB x = true) :
    filterValid valid xs = .ok (xs.filter (fun x => valid.any (fun k => pyEqVal x k))) := by
  induction xs with
  | nil => rfl
  | cons x rest ih =>
    have hx : hashableB x = true := h x (List.mem_cons_self _ _)
    have hr := ih (fun y hy => h y (List.mem_cons_of_mem _ hy))
    unfold filterValid
    rw [if_pos hx, hr]
    by_cases hv : valid.any (fun k => pyEqVal x k) = true
    · simp [List.filter_cons, hv]
    · simp [List.filter_cons, hv]


theorem sanitizeItem_tipo3 (mapa : List (JVal × JVal)) (kvs : List (String × JVal))
    (hT : truthy (pyGet kvs "pregunta_id") = true)
    (hH : hashableB (pyGet kvs "pregunta_id") = true)
    (htip : pyGet kvs "tipo_pregunta_id" = .num 3)
    {kvs3 : List (String × JVal)}
    (h3 : tipo3Core (objSet kvs "texto" JVal.null) = .ok kvs3) :
    sanitizeItem mapa (.obj kvs) = .ok (some (.obj kvs3)) := by
  have halias : aliasStep kvs = kvs := aliasStep_of_truthy kvs hT
  refine sanitizeItem_eq_of_steps mapa kvs _ kvs kvs3 kvs3
    (by rw [halias]; exact hT) (by rw [halias]; exact hH) rfl ?_ ?_ ?_
  · rw [halias, htip]
    exact tipo1Step_ne _ _ _ (by decide)
  · rw [halias, htip, tipo2Step_ne _ _ (by decide)]
    unfold tipo3Step
    rw [if_pos (by decide)]
    exact h3
  · rw [halias, htip]
    exact tipo4Step_ne _ _ _ (by decide)

theorem sanitizeItem_tipo4 (mapa : List (JVal × JVal)) (kvs : List (String × JVal))
    (hT : truthy (pyGet kvs "pregunta_id") = true)
    (hH : hashableB (pyGet kvs "pregunta_id") = true)
    (htip : pyGet kvs "tipo_pregunta_id" = .num 4)
    {preg : JVal}
    (hpreg : (match mapaGet mapa (pyGet kvs "pregunta_id") with
              | some v => if truthy v = true then v else JVal.obj []
              | none => JVal.obj []) = preg)
    {kvs4 : List (String × JVal)}
    (h4 : tipo4Core preg (objSet kvs "texto" JVal.null) = .ok kvs4) :
    sanitizeItem mapa (.obj kvs) = .ok (some (.obj kvs4)) := by
  have halias : aliasStep kvs = kvs := aliasStep_of_truthy kvs hT
  refine sanitizeItem_eq_of_steps mapa kvs preg kvs kvs kvs4
    (by rw [halias]; exact hT) (by rw [halias]; exact hH) (by rw [halias, hpreg]) ?_ ?_ ?_
  · rw [halias, htip]
    exact tipo1Step_ne _ _ _ (by decide)
  · rw [halias, htip, tipo2Step_ne _ _ (by decide), tipo3Step_ne _ _ (by decide)]
  · rw [halias, htip]
    unfold tipo4Step
    rw [if_pos (by decide)]
    exact h4

/-- Claim C5, amended: for a SINGLE_CHOICE (type 3) raw answer with a
choice-id list of N >= 1 ids, the normalized entry carries exactly the first
original id as opcion_id, texto is cleared and the list is emptied; when no
ids are offered, sanitize does not set or clear the single-choice id itself -
the normalized opcion_id equals whatever the raw answer carried (so it is
absent only when it was absent in the raw answer, refuting the unconditional
no-id-set reading). -/
theorem sanitize_single_choice_first_id (mapa : List (JVal × JVal))
    (kvs : List (String × JVal))
    (hT : truthy (pyGet kvs "pregunta_id") = true)
    (hH : hashableB (pyGet kvs "pregunta_id") = true)
    (htip : pyGet kvs "tipo_pregunta_id" = .num 3) :
    (∀ x xs, pyGet kvs "opciones_ids" = .arr (x :: xs) →
      ∃ kvs', sanitizeItem mapa (.obj kvs) = .ok (some (.obj kvs')) ∧
        pyGet kvs' "opcion_id" = x ∧ pyGet kvs' "texto" = .null ∧
        pyGet kvs' "opciones_ids" = .arr []) ∧
    (truthy (pyGet kvs "opciones_ids") = false →
      ∃ kvs', sanitizeItem mapa (.obj kvs) = .ok (some (.obj kvs')) ∧
        pyGet kvs' "opcion_id" = pyGet kvs "opcion_id" ∧
        pyGet kvs' "texto" = .null) := by
  have hops_pres : pyGet (objSet kvs "texto" JVal.null) "opciones_ids" =
      pyGet kvs "opciones_ids" := pyGet_objSet_ne _ _ _ _ (by decide)
  constructor
  · intro x xs hx
    have h3 : tipo3Core (objSet kvs "texto" JVal.null) = .ok
        (objSet (objSet (objSet kvs "texto" JVal.null) "opcion_id" x)
          "opciones_ids" (.arr [])) := by
      unfold tipo3Core
      rw [hops_pres, hx, if_pos (by simp [truthy])]
      simp only [pySub0]
    refine ⟨_, sanitizeItem_tipo3 mapa kvs hT hH htip h3, ?_, ?_, ?_⟩
    · rw [pyGet_objSet_ne _ _ _ _ (by decide), pyGet_objSet_self]
    · rw [pyGet_objSet_ne _ _ _ _ (by decide), pyGet_objSet_ne _ _ _ _ (by decide),
          pyGet_objSet_self]
    · rw [pyGet_objSet_self]
  · intro hfalsy
    have h3 : tipo3Core (objSet kvs "texto" JVal.null) = .ok (objSet kvs "texto" JVal.null) := by
      unfold tipo3Core
      rw [hops_pres, hfalsy]
      simp
    refine ⟨_, sanitizeItem_tipo3 mapa kvs hT hH htip h3, ?_, pyGet_objSet_self _ _ _⟩
    exact pyGet_objSet_ne _ _ _ _ (by decide)

/-- Claim C6: for a MULTI_CHOICE (type 4) raw answer, the normalized
multi-choice id list is exactly the order-preserving filter of the input list
keeping those ids that occur in the declared option set of the question, and
texto is cleared unconditionally.  The filter is a sublist of the input, and
membership in it is membership in the input plus membership in the option
set. -/
theorem sanitize_multi_choice_filter (mapa : List (JVal × JVal))
    (kvs qkvs : List (String × JVal)) (xs os vids : List JVal)
    (hT : truthy (pyGet kvs "pregunta_id") = true)
    (hH : hashableB (pyGet kvs "pregunta_id") = true)
    (htip : pyGet kvs "tipo_pregunta_id" = .num 4)
    (hres : mapaGet mapa (pyGet kvs "pregunta_id") = some (.obj qkvs))
    (hqne : qkvs ≠ [])
    (hops : objGet qkvs "opciones" = some (.arr os))
    (hvids : optionIds os = .ok vids)
    (hoid : objGet kvs "opciones_ids" = some (.arr xs))
    (hxs : ∀ x ∈ xs, hashableB x = true) :
    ∃ kvs', sanitizeItem mapa (.obj kvs) = .ok (some (.obj kvs')) ∧
      pyGet kvs' "texto" = .null ∧
      pyGet kvs' "opciones_ids" =
        .arr (xs.filter (fun x => vids.any (fun k => pyEqVal x k))) ∧
      (xs.filter (fun x => vids.any (fun k => pyEqVal x k))).Sublist xs ∧
      ∀ x, x ∈ xs.filter (fun x => vids.any (fun k => pyEqVal x k)) ↔
        (x ∈ xs ∧ vids.any (fun k => pyEqVal x k) = true) := by
  have hpreg : (match mapaGet mapa (pyGet kvs "pregunta_id") with
                | some v => if truthy v = true then v else JVal.obj []
                | none => JVal.obj []) = JVal.obj qkvs := by
    rw [hres]
    simp [truthy_obj_ne_nil qkvs hqne]
  have hcore : tipo4Core (JVal.obj qkvs) (objSet kvs "texto" JVal.null) = .ok
      (objSet (objSet kvs "texto" JVal.null) "opciones_ids"
        (.arr (xs.filter (fun x => vids.any (fun k => pyEqVal x k))))) := by
    simp only [tipo4Core]
    rw [hops]
    simp only [Option.getD_some, pyIter, hvids]
    rw [objGet_objSet_ne _ _ _ _ (by decide), hoid]
    simp only [Option.getD_some, pyIter]
    rw [filterValid_ok vids xs hxs]
  refine ⟨_, sanitizeItem_tipo4 mapa kvs hT hH htip hpreg hcore, ?_, ?_,
    List.filter_sublist _, fun x => by simp [List.mem_filter]⟩
  · rw [pyGet_objSet_ne _ _ _ _ (by decide), pyGet_objSet_self]
  · rw [pyGet_objSet_self]

/-- Claim C10: sanitize_answers never validates a SINGLE_CHOICE (type 3)
selection against the option set of the question: the first element of a
non-empty choice-id list becomes opcion_id even when it does not occur among
the declared option ids, and with an empty list a directly supplied opcion_id
passes through unchanged - while for MULTI_CHOICE (type 4) an id absent from
the option set is filtered out. -/
theorem sanitize_single_choice_unvalidated (mapa : List (JVal × JVal))
    (kvs qkvs : List (String × JVal)) (os vids : List JVal)
    (hT : truthy (pyGet kvs "pregunta_id") = true)
    (hH : hashableB (pyGet kvs "pregunta_id") = true)
    (hres : mapaGet mapa (pyGet kvs "pregunta_id") = some (.obj qkvs))
    (hqne : qkvs ≠ [])
    (hops : objGet qkvs "opciones" = some (.arr os))
    (hvids : optionIds os = .ok vids) :
    (∀ x xs, pyGet kvs "tipo_pregunta_id" = .num 3 →
      pyGet kvs "opciones_ids" = .arr (x :: xs) →
      vids.any (fun k => pyEqVal x k) = false →
      ∃ kvs', sanitizeItem mapa (.obj kvs) = .ok (some (.obj kvs')) ∧
        pyGet kvs' "opcion_id" = x) ∧
    (∀ v, pyGet kvs "tipo_pregunta_id" = .num 3 →
      truthy (pyGet kvs "opciones_ids") = false →
      pyGet kvs "opcion_id" = v →
      ∃ kvs', sanitizeItem mapa (.obj kvs) = .ok (some (.obj kvs')) ∧
        pyGet kvs' "opcion_id" = v) ∧
    (∀ x, pyGet kvs "tipo_pregunta_id" = .num 4 →
      objGet kvs "opciones_ids" = some (.arr [x]) →
      hashableB x = true →
      vids.any (fun k => pyEqVal x k) = false →
      ∃ kvs', sanitizeItem mapa (.obj kvs) = .ok (some (.obj kvs')) ∧
        pyGet kvs' "opciones_ids" = .arr []) := by
  have hops_pres : pyGet (objSet kvs "texto" JVal.null) "opciones_ids" =
      pyGet kvs "opciones_ids" := pyGet_objSet_ne _ _ _ _ (by decide)
  refine ⟨?_, ?_, ?_⟩
  · intro x xs htip hx hnotin
    have h3 : tipo3Core (objSet kvs "texto" JVal.null) = .ok
        (objSet (objSet (objSet kvs "texto" JVal.null) "opcion_id" x)
          "opciones_ids" (.arr [])) := by
      unfold tipo3Core
      rw [hops_pres, hx, if_pos (by simp [truthy])]
      simp only [pySub0]
    refine ⟨_, sanitizeItem_tipo3 mapa kvs hT hH htip h3, ?_⟩
    rw [pyGet_objSet_ne _ _ _ _ (by decide), pyGet_objSet_self]
  · intro v htip hfalsy hv
    have h3 : tipo3Core (objSet kvs "texto" JVal.null) = .ok (objSet kvs "texto" JVal.null) := by
      unfold tipo3Core
      rw [hops_pres, hfalsy]
      simp
    refine ⟨_, sanitizeItem_tipo3 mapa kvs hT hH htip h3, ?_⟩
    rw [pyGet_objSet_ne _ _ _ _ (by decide)]
    exact hv
  · intro x htip hx hhash hnotin
    have hpreg : (match mapaGet mapa (pyGet kvs "pregunta_id") with
                  | some v => if truthy v = true then v else JVal.obj []
                  | none => JVal.obj []) = JVal.obj qkvs := by
      rw [hres]
      simp [truthy_obj_ne_nil qkvs hqne]
    have hcore : tipo4Core (JVal.obj qkvs) (objSet kvs "texto" JVal.null) = .ok
        (objSet (objSet kvs "texto" JVal.null) "opciones_ids" (.arr [])) := by
      simp only [tipo4Core]
      rw [hops]
      simp only [Option.getD_some, pyIter, hvids]
      rw [objGet_objSet_ne _ _ _ _ (by decide), hx]
      simp only [Option.getD_some, pyIter]
      rw [filterValid_ok vids [x] (by intro y hy; simp at hy; subst hy; exact hhash)]
      simp [List.filter_cons, hnotin]
    refine ⟨_, sanitizeItem_tipo4 mapa kvs hT hH htip hpreg hcore, ?_⟩
    rw [pyGet_objSet_self]

theorem rowBase_numero (rk : List (String × JVal)) (qid : JVal) :
    objGet (rowBase rk qid) "numero" =
      if numeroOmitted (pyGet rk "numero") then none else some (pyGet rk "numero") := by
  have hA : ∀ (X : List (String × JVal)) v, objGet (objSet X "opcion_id" v) "numero" =
      objGet X "numero" := fun X v => objGet_objSet_ne X _ _ v (by decide)
  have hB : ∀ (X : List (String × JVal)) v, objGet (objSet X "texto" v) "numero" =
      objGet X "numero" := fun X v => objGet_objSet_ne X _ _ v (by decide)
  have hC : ∀ (X : List (String × JVal)) v, objGet (objSet X "numero" v) "numero" =
      some v := fun X v => objGet_objSet_self X _ _
  by_cases h1 : truthy (pyGet rk "texto") = true <;>
    by_cases h2 : numeroOmitted (pyGet rk "numero") = true <;>
    by_cases h3 : truthy (pyGet rk "opcion_id") = true <;>
    simp [rowBase, h1, h2, h3, hA, hB, hC, objGet]

/-- Claim C2, amended: for a normalized answer whose opciones_ids list is
non-empty with N elements, build_backend_payload emits exactly N rows, each a
clone of the base record with opcion_id overridden by one list element in
order; when the list is empty or missing it emits one base row instead of
zero rows. -/
theorem build_rows_multi_choice_fanout (rk : List (String × JVal)) (qid x : JVal)
    (xs : List JVal) (hq : objGet rk "pregunta_id" = some qid) :
    (objGet rk "opciones_ids" = some (.arr (x :: xs)) →
      rowsFor (.obj rk) = .ok ((x :: xs).map
        (fun oid => .obj (objSet (rowBase rk qid) "opcion_id" oid))) ∧
      ((x :: xs).map (fun oid => JVal.obj (objSet (rowBase rk qid) "opcion_id" oid))).length
        = (x :: xs).length) ∧
    (truthy (pyGet rk "opciones_ids") = false →
      rowsFor (.obj rk) = .ok [.obj (rowBase rk qid)]) := by
  constructor
  · intro hoid
    have htru : truthy (pyGet rk "opciones_ids") = true := by
      simp [pyGet, hoid, truthy]
    refine ⟨?_, by simp⟩
    simp only [rowsFor, hq]
    rw [if_pos htru]
    simp only [pyGet, hoid, Option.getD_some, pyIter]
  · intro hfalsy
    simp only [rowsFor, hq]
    rw [if_neg (by simp [hfalsy])]

theorem takeWhile_append_dot (l1 l2 : List Char) (h : ∀ c ∈ l1, (c != '.') = true) :
    (l1 ++ '.' :: l2).takeWhile (fun c => c != '.') = l1 := by
  induction l1 with
  | nil => simp [List.takeWhile]
  | cons c rest ih =>
    have hc := h c (List.mem_cons_self _ _)
    simp only [List.cons_append, List.takeWhile_cons, hc, if_true]
    rw [ih (fun y hy => h y (List.mem_cons_of_mem _ hy))]

theorem entregaIdOf_append (idp ext : String) (h : ∀ c ∈ idp.data, (c != '.') = true) :
    entregaIdOf (idp ++ "." ++ ext) = idp := by
  unfold entregaIdOf
  have hdot : ("." : String).data = ['.'] := rfl
  have hdata : (idp ++ "." ++ ext).data = idp.data ++ '.' :: ext.data := by
    rw [String.data_append, String.data_append, List.append_assoc, hdot]
    rfl
  rw [hdata, takeWhile_append_dot _ _ h]

/-- Claim C8, amended: the upload validation of POST /stt answers 400
exactly when the content type does not start with audio/ or the part of the
filename before its first dot does not parse as a UUID; a file named
not-a-uuid.wav is rejected with 400, and a well-formed <uuid>.<ext> filename
with an audio content type is accepted.  (No extension is actually required:
a dotless filename that itself parses as a UUID passes, refuting the
form-based reading.) -/
theorem stt_validate_400_characterization :
    (∀ ct fn, sttValidate ct fn = .error 400 ↔
      (isAudioContentType ct = false ∨ pyUUIDParses (entregaIdOf fn) = false)) ∧
    sttValidate "audio/wav" "not-a-uuid.wav" = .error 400 ∧
    (∀ ct idp ext, isAudioContentType ct = true → pyUUIDParses idp = true →
      (∀ c ∈ idp.data, (c != '.') = true) →
      sttValidate ct (idp ++ "." ++ ext) = .ok idp) := by
  refine ⟨?_, rfl, ?_⟩
  · intro ct fn
    unfold sttValidate
    by_cases ha : isAudioContentType ct = true <;>
      by_cases hp : pyUUIDParses (entregaIdOf fn) = true <;>
      simp [ha, hp]
  · intro ct idp ext ha hp hnd
    unfold sttValidate
    rw [entregaIdOf_append idp ext hnd]
    simp [ha, hp]

/-- Claim C9, amended: when the backend submission fails - the POST raises,
raise_for_status raises on a 4xx/5xx status, or decoding the reply body
raises - the endpoint still responds 200, the payload_enviado field carries
the attempted payload unchanged, and respuesta_backend is replaced by an
object holding the failure reason and the attempted payload.  (A non-2xx
status below 400, such as 304, is not treated as a failure, refuting the
non-2xx reading.) -/
theorem stt_submission_failure_captured (e t : String) (payload : JVal)
    (outcome : PostOutcome)
    (hfail : (∃ msg, outcome = .raised msg) ∨
      (∃ status body, outcome = .responded status body ∧ 400 ≤ status ∧ status < 600) ∨
      (∃ status err, outcome = .responded status (.error err))) :
    (sttResponse e t payload outcome).1 = 200 ∧
    objGet (objKvs (sttResponse e t payload outcome).2) "payload_enviado" = some payload ∧
    ∃ msg, submitBackend payload outcome =
      .obj [("error", .str msg), ("payload_enviado", payload)] := by
  refine ⟨rfl, ?_, ?_⟩
  · simp [sttResponse, objKvs, objGet]
  · rcases hfail with ⟨msg, rfl⟩ | ⟨status, body, rfl, h4, h6⟩ | ⟨status, err, rfl⟩
    · exact ⟨msg, rfl⟩
    · refine ⟨httpErrorMessage status, ?_⟩
      simp [submitBackend, h4, h6]
    · by_cases hs : 400 ≤ status ∧ status < 600
      · refine ⟨httpErrorMessage status, ?_⟩
        simp [submitBackend, hs.1, hs.2]
      · refine ⟨err, ?_⟩
        simp only [submitBackend]
        rw [if_neg (by simpa using hs)]

theorem strOrNull_truthy {v : JVal} (h : strOrNull v = true) (ht : truthy v = true) :
    ∃ s, v = JVal.str s := by
  cases v with
  | str s => exact ⟨s, rfl⟩
  | null => exact absurd ht (by simp [truthy])
  | bool b => exact absurd h (by simp [strOrNull])
  | num n => exact absurd h (by simp [strOrNull])
  | arr xs => exact absurd h (by simp [strOrNull])
  | obj kvs => exact absurd h (by simp [strOrNull])

theorem strOrMissing_elim {v : Option JVal} (h : strOrMissing v = true) :
    ∀ w, v = some w → ∃ s, w = JVal.str s := by
  intro w hw
  subst hw
  cases w with
  | str s => exact ⟨s, rfl⟩
  | null => exact absurd h (by simp [strOrMissing])
  | bool b => exact absurd h (by simp [strOrMissing])
  | num n => exact absurd h (by simp [strOrMissing])
  | arr xs => exact absurd h (by simp [strOrMissing])
  | obj kvs => exact absurd h (by simp [strOrMissing])

theorem optIsArrOf_elim {p : JVal → Bool} {v : Option JVal}
    (h : optIsArrOf p v = true) :
    ∀ w, v = some w → ∃ xs, w = JVal.arr xs ∧ ∀ x ∈ xs, p x = true := by
  intro w hw
  subst hw
  cases w with
  | arr xs =>
    refine ⟨xs, rfl, ?_⟩
    simpa [optIsArrOf, List.all_eq_true] using h
  | str s => exact absurd h (by simp [optIsArrOf])
  | null => exact absurd h (by simp [optIsArrOf])
  | bool b => exact absurd h (by simp [optIsArrOf])
  | num n => exact absurd h (by simp [optIsArrOf])
  | obj kvs => exact absurd h (by simp [optIsArrOf])

theorem hasHashableId_elim {kvs : List (String × JVal)} (h : hasHashableId kvs = true) :
    ∃ k, objGet kvs "id" = some k ∧ hashableB k = true := by
  unfold hasHashableId at h
  split at h
  · rename_i k hk
    exact ⟨k, hk, h⟩
  · exact absurd h (by simp)

theorem wfOption_elim {o : JVal} (h : wfOption o = true) :
    ∃ okvs k, o = JVal.obj okvs ∧ objGet okvs "id" = some k ∧ hashableB k = true := by
  cases o with
  | obj okvs =>
    obtain ⟨k, hk, hh⟩ := hasHashableId_elim (by simpa [wfOption] using h)
    exact ⟨okvs, k, rfl, hk, hh⟩
  | null => exact absurd h (by simp [wfOption])
  | bool b => exact absurd h (by simp [wfOption])
  | num n => exact absurd h (by simp [wfOption])
  | str s => exact absurd h (by simp [wfOption])
  | arr xs => exact absurd h (by simp [wfOption])

theorem wfQuestion_elim {p : JVal} (h : wfQuestion p = true) :
    ∃ pkvs, p = JVal.obj pkvs ∧ hasHashableId pkvs = true ∧
      strOrMissing (objGet pkvs "texto") = true ∧
      optIsArrOf wfOption (objGet pkvs "opciones") = true := by
  cases p with
  | obj pkvs =>
    have h' : (hasHashableId pkvs && strOrMissing (objGet pkvs "texto") &&
        optIsArrOf wfOption (objGet pkvs "opciones")) = true := by
      simpa [wfQuestion] using h
    rw [Bool.and_eq_true, Bool.and_eq_true] at h'
    exact ⟨pkvs, rfl, h'.1.1, h'.1.2, h'.2⟩
  | null => exact absurd h (by simp [wfQuestion])
  | bool b => exact absurd h (by simp [wfQuestion])
  | num n => exact absurd h (by simp [wfQuestion])
  | str s => exact absurd h (by simp [wfQuestion])
  | arr xs => exact absurd h (by simp [wfQuestion])

theorem wfItem_elim {it : JVal} (h : wfItem it = true) :
    ∃ kvs, it = JVal.obj kvs ∧ hashableB (pyGet kvs "pregunta_id") = true ∧
      hashableB (pyGet kvs "id") = true ∧ strOrNull (pyGet kvs "texto") = true ∧
      optIsArrOf hashableB (objGet kvs "opciones_ids") = true := by
  cases it with
  | obj kvs =>
    have h' : (hashableB (pyGet kvs "pregunta_id") && hashableB (pyGet kvs "id") &&
        strOrNull (pyGet kvs "texto") &&
        optIsArrOf hashableB (objGet kvs "opciones_ids")) = true := by
      simpa [wfItem] using h
    rw [Bool.and_eq_true, Bool.and_eq_true, Bool.and_eq_true] at h'
    exact ⟨kvs, rfl, h'.1.1.1, h'.1.1.2, h'.1.2, h'.2⟩
  | null => exact absurd h (by simp [wfItem])
  | bool b => exact absurd h (by simp [wfItem])
  | num n => exact absurd h (by simp [wfItem])
  | str s => exact absurd h (by simp [wfItem])
  | arr xs => exact absurd h (by simp [wfItem])

theorem exists_ok_ite {α : Type} (c : Prop) [Decidable c] (a b : α) :
    ∃ x, (if c then (Except.ok a : Except String α) else .ok b) = .ok x := by
  by_cases h : c
  · exact ⟨a, by rw [if_pos h]⟩
  · exact ⟨b, by rw [if_neg h]⟩

theorem tipo1Step_ok (tipo preg : JVal) (kvs : List (String × JVal))
    (htex : strOrNull (pyGet kvs "texto") = true)
    (hpreg : ∃ pkvs, preg = JVal.obj pkvs ∧ strOrMissing (objGet pkvs "texto") = true) :
    ∃ kvs1, tipo1Step tipo preg kvs = .ok kvs1 := by
  obtain ⟨pkvs, rfl, hq⟩ := hpreg
  unfold tipo1Step
  by_cases hg : (pyEqVal tipo (.num 1) && truthy (pyGet kvs "texto")) = true
  · rw [if_pos hg]
    rw [Bool.and_eq_true] at hg
    obtain ⟨s, hs⟩ := strOrNull_truthy htex hg.2
    rw [hs]
    cases ho : objGet pkvs "texto" with
    | none =>
      simp only [ho, Option.getD_none]
      exact exists_ok_ite _ _ _
    | some v =>
      obtain ⟨qs, rfl⟩ := strOrMissing_elim hq v ho
      simp only [ho, Option.getD_some]
      exact exists_ok_ite _ _ _
  · rw [if_neg hg]
    exact ⟨kvs, rfl⟩

theorem tipo3Step_ok (tipo : JVal) (kvs : List (String × JVal))
    (hops : optIsArrOf hashableB (objGet kvs "opciones_ids") = true) :
    ∃ kvs3, tipo3Step tipo kvs = .ok kvs3 := by
  unfold tipo3Step
  by_cases hg : pyEqVal tipo (.num 3) = true
  · rw [if_pos hg]
    unfold tipo3Core
    have hps : pyGet (objSet kvs "texto" JVal.null) "opciones_ids" =
        pyGet kvs "opciones_ids" := pyGet_objSet_ne _ _ _ _ (by decide)
    rw [hps]
    cases ho : objGet kvs "opciones_ids" with
    | none =>
      rw [show pyGet kvs "opciones_ids" = JVal.null by simp [pyGet, ho]]
      exact ⟨_, by rw [if_neg (by simp [truthy])]⟩
    | some v =>
      obtain ⟨xs, rfl, hall⟩ := optIsArrOf_elim hops v ho
      rw [show pyGet kvs "opciones_ids" = JVal.arr xs by simp [pyGet, ho]]
      cases xs with
      | nil => exact ⟨_, by rw [if_neg (by simp [truthy])]⟩
      | cons x rest =>
        refine ⟨objSet (objSet (objSet kvs "texto" JVal.null) "opcion_id" x)
          "opciones_ids" (.arr []), ?_⟩
        rw [if_pos (by simp [truthy])]
        simp only [pySub0]
  · rw [if_neg hg]
    exact ⟨kvs, rfl⟩

theorem optionIds_ok (os : List JVal) (h : ∀ o ∈ os, wfOption o = true) :
    ∃ vids, optionIds os = .ok vids := by
  induction os with
  | nil => exact ⟨[], rfl⟩
  | cons o rest ih =>
    obtain ⟨okvs, k, rfl, hk, hh⟩ := wfOption_elim (h o (List.mem_cons_self _ _))
    obtain ⟨tail, htail⟩ := ih (fun y hy => h y (List.mem_cons_of_mem _ hy))
    refine ⟨k :: tail, ?_⟩
    simp only [optionIds]
    rw [hk]
    simp only [hh, eq_self_iff_true, if_true, htail]

theorem tipo4Step_ok (tipo preg : JVal) (kvs : List (String × JVal))
    (hpreg : ∃ pkvs, preg = JVal.obj pkvs ∧
      optIsArrOf wfOption (objGet pkvs "opciones") = true)
    (hops : optIsArrOf hashableB (objGet kvs "opciones_ids") = true) :
    ∃ kvs4, tipo4Step tipo preg kvs = .ok kvs4 := by
  obtain ⟨pkvs, rfl, hq⟩ := hpreg
  unfold tipo4Step
  by_cases hg : pyEqVal tipo (.num 4) = true
  · rw [if_pos hg]
    simp only [tipo4Core]
    have hos : ∃ os, pyIter ((objGet pkvs "opciones").getD (JVal.arr [])) = .ok os ∧
        ∀ o ∈ os, wfOption o = true := by
      cases ho : objGet pkvs "opciones" with
      | none => exact ⟨[], rfl, by simp⟩
      | some v =>
        obtain ⟨os, rfl, hall⟩ := optIsArrOf_elim hq v ho
        exact ⟨os, rfl, hall⟩
    obtain ⟨os, hosIter, hosWf⟩ := hos
    obtain ⟨vids, hvids⟩ := optionIds_ok os hosWf
    have hops1 : objGet (objSet kvs "texto" JVal.null) "opciones_ids" =
        objGet kvs "opciones_ids" := objGet_objSet_ne _ _ _ _ (by decide)
    have hxs : ∃ xs, pyIter ((objGet (objSet kvs "texto" JVal.null)
        "opciones_ids").getD (JVal.arr [])) = .ok xs ∧ ∀ x ∈ xs, hashableB x = true := by
      rw [hops1]
      cases ho : objGet kvs "opciones_ids" with
      | none => exact ⟨[], rfl, by simp⟩
      | some v =>
        obtain ⟨xs, rfl, hall⟩ := optIsArrOf_elim hops v ho
        exact ⟨xs, rfl, hall⟩
    obtain ⟨xs, hxsIter, hxsH⟩ := hxs
    simp only [hosIter, hvids, hxsIter, filterValid_ok vids xs hxsH]
    exact ⟨_, rfl⟩
  · rw [if_neg hg]
    exact ⟨kvs, rfl⟩

theorem aliasStep_cases (kvs : List (String × JVal)) :
    aliasStep kvs = kvs ∨
    aliasStep kvs = objSet (objPop kvs "id") "pregunta_id" (pyGet kvs "id") := by
  unfold aliasStep
  split
  · exact Or.inr rfl
  · exact Or.inl rfl

theorem sanitizeItem_ok (mapa : List (JVal × JVal)) (it : JVal)
    (hwf : wfItem it = true)
    (hm : ∀ key w, mapaGet mapa key = some w → wfQuestion w = true) :
    ∃ r, sanitizeItem mapa it = .ok r := by
  obtain ⟨kvs, rfl, hq1, hq2, htex, hops⟩ := wfItem_elim hwf
  have hAtex : strOrNull (pyGet (aliasStep kvs) "texto") = true := by
    rw [pyGet_aliasStep_ne _ _ (by decide) (by decide)]
    exact htex
  have hAops : optIsArrOf hashableB (objGet (aliasStep kvs) "opciones_ids") = true := by
    rw [objGet_aliasStep_ne _ _ (by decide) (by decide)]
    exact hops
  have hAid : hashableB (pyGet (aliasStep kvs) "pregunta_id") = true := by
    rcases aliasStep_cases kvs with ha | ha <;> rw [ha]
    · exact hq1
    · rw [pyGet_objSet_self]
      exact hq2
  by_cases hT : truthy (pyGet (aliasStep kvs) "pregunta_id") = true
  case neg =>
    refine ⟨none, ?_⟩
    simp only [sanitizeItem]
    rw [if_neg hT]
  case pos =>
    have hpregWF : ∃ pkvs,
        (match mapaGet mapa (pyGet (aliasStep kvs) "pregunta_id") with
         | some v => if truthy v = true then v else JVal.obj []
         | none => JVal.obj []) = JVal.obj pkvs ∧
        strOrMissing (objGet pkvs "texto") = true ∧
        optIsArrOf wfOption (objGet pkvs "opciones") = true := by
      cases hmg : mapaGet mapa (pyGet (aliasStep kvs) "pregunta_id") with
      | none => exact ⟨[], rfl, rfl, rfl⟩
      | some v =>
        obtain ⟨pkvs, rfl, _, ht, ho⟩ := wfQuestion_elim (hm _ _ hmg)
        by_cases htv : truthy (JVal.obj pkvs) = true
        · refine ⟨pkvs, ?_, ht, ho⟩
          simp only [htv, if_true]
        · refine ⟨[], ?_, rfl, rfl⟩
          simp only [if_neg htv]
    obtain ⟨pkvs, hpreg, hptex, hpops⟩ := hpregWF
    obtain ⟨kvs1, h1⟩ := tipo1Step_ok (pyGet (aliasStep kvs) "tipo_pregunta_id")
      (JVal.obj pkvs) (aliasStep kvs) hAtex ⟨pkvs, rfl, hptex⟩
    have hops1 : optIsArrOf hashableB (objGet kvs1 "opciones_ids") = true := by
      rcases tipo1Step_cases h1 with rfl | rfl
      · exact hAops
      · rw [objGet_objSet_ne _ _ _ _ (by decide)]
        exact hAops
    have hops2 : optIsArrOf hashableB (objGet
        (tipo2Step (pyGet (aliasStep kvs) "tipo_pregunta_id") kvs1) "opciones_ids") = true := by
      rcases tipo2Step_cases (pyGet (aliasStep kvs) "tipo_pregunta_id") kvs1 with h2 | h2 <;>
        rw [h2]
      · exact hops1
      · rw [objGet_objSet_ne _ _ _ _ (by decide)]
        exact hops1
    obtain ⟨kvs3, h3⟩ := tipo3Step_ok _ _ hops2
    have hops3 : optIsArrOf hashableB (objGet kvs3 "opciones_ids") = true := by
      rcases tipo3Step_cases h3 with rfl | rfl | ⟨f, rfl⟩
      · exact hops2
      · rw [objGet_objSet_ne _ _ _ _ (by decide)]
        exact hops2
      · rw [objGet_objSet_self]
        rfl
    obtain ⟨kvs4, h4⟩ := tipo4Step_ok _ (JVal.obj pkvs) kvs3 ⟨pkvs, rfl, hpops⟩ hops3
    exact ⟨some (.obj kvs4),
      sanitizeItem_eq_of_steps mapa kvs (JVal.obj pkvs) kvs1 kvs3 kvs4 hT hAid hpreg h1 h3 h4⟩

theorem mapaGet_mem_values (mapa : List (JVal × JVal)) (key w : JVal)
    (h : mapaGet mapa key = some w) : w ∈ mapa.map Prod.snd := by
  induction mapa with
  | nil => simp [mapaGet] at h
  | cons kv rest ih =>
    obtain ⟨k', v'⟩ := kv
    unfold mapaGet at h
    split at h
    · rw [Option.some.injEq] at h
      subst h
      simp
    · simp [ih h]

theorem mapaInsert_values (mapa : List (JVal × JVal)) (k v : JVal) :
    ∀ w ∈ (mapaInsert mapa k v).map Prod.snd, w = v ∨ w ∈ mapa.map Prod.snd := by
  induction mapa with
  | nil =>
    intro w hw
    simp [mapaInsert] at hw
    exact Or.inl hw
  | cons kv rest ih =>
    obtain ⟨k', w'⟩ := kv
    intro w hw
    unfold mapaInsert at hw
    split at hw
    · simp at hw
      rcases hw with hw | hw
      · exact Or.inl hw
      · exact Or.inr (by simp [hw])
    · simp at hw
      rcases hw with hw | hw
      · exact Or.inr (by simp [hw])
      · rcases ih w (by simpa using hw) with h1 | h1
        · exact Or.inl h1
        · exact Or.inr (by simp [h1])

theorem buildMapaList_ok (ps : List JVal) (mapa : List (JVal × JVal))
    (hps : ∀ p ∈ ps, wfQuestion p = true)
    (hm : ∀ w ∈ mapa.map Prod.snd, wfQuestion w = true) :
    ∃ mapa', buildMapaList ps mapa = .ok mapa' ∧
      ∀ w ∈ mapa'.map Prod.snd, wfQuestion w = true := by
  induction ps generalizing mapa with
  | nil => exact ⟨mapa, rfl, hm⟩
  | cons p rest ih =>
    obtain ⟨pkvs, rfl, hid, _, _⟩ := wfQuestion_elim (hps p (List.mem_cons_self _ _))
    obtain ⟨k, hk, hh⟩ := hasHashableId_elim hid
    have hm' : ∀ w ∈ (mapaInsert mapa k (JVal.obj pkvs)).map Prod.snd,
        wfQuestion w = true := by
      intro w hw
      rcases mapaInsert_values mapa k (JVal.obj pkvs) w hw with rfl | hmem
      · exact hps _ (List.mem_cons_self _ _)
      · exact hm w hmem
    obtain ⟨mapa', hok, hvals⟩ := ih (mapaInsert mapa k (JVal.obj pkvs))
      (fun y hy => hps y (List.mem_cons_of_mem _ hy)) hm'
    refine ⟨mapa', ?_, hvals⟩
    simp only [buildMapaList]
    rw [hk]
    simp only [hh, eq_self_iff_true, if_true]
    exact hok

theorem sanitizeList_ok (mapa : List (JVal × JVal)) (items : List JVal)
    (hits : ∀ it ∈ items, wfItem it = true)
    (hm : ∀ key w, mapaGet mapa key = some w → wfQuestion w = true) :
    ∀ acc, ∃ dep, sanitizeList mapa items acc = .ok dep := by
  induction items with
  | nil => exact fun acc => ⟨acc, rfl⟩
  | cons it rest ih =>
    intro acc
    obtain ⟨r, hr⟩ := sanitizeItem_ok mapa it (hits it (List.mem_cons_self _ _)) hm
    cases r with
    | some o =>
      obtain ⟨dep, hdep⟩ := ih (fun y hy => hits y (List.mem_cons_of_mem _ hy)) (acc ++ [o])
      refine ⟨dep, ?_⟩
      simp only [sanitizeList, hr]
      exact hdep
    | none =>
      obtain ⟨dep, hdep⟩ := ih (fun y hy => hits y (List.mem_cons_of_mem _ hy)) acc
      refine ⟨dep, ?_⟩
      simp only [sanitizeList, hr]
      exact hdep

/-- Claim C3, amended: sanitize_answers is total on well-formed inputs - a
template that is an object with a preguntas list of question objects, each
carrying a hashable id, a string texto when present, and an options list of
objects with hashable ids when present; and raw answers that are an object
whose respuestas_preguntas, when present, is a list of objects with hashable
identifier fields, string-or-null texto, and a list of hashable ids under
opciones_ids when present.  On such inputs it always returns a result.  (On
malformed values it raises, refuting the unconditional claim.) -/
theorem sanitize_total_on_wellformed (data plantilla : JVal)
    (hd : wfData data = true) (hp : wfPlantilla plantilla = true) :
    ∃ out, sanitize_answers data plantilla = .ok out := by
  have hpl : ∃ pkvs ps, plantilla = JVal.obj pkvs ∧
      objGet pkvs "preguntas" = some (.arr ps) ∧ ∀ p ∈ ps, wfQuestion p = true := by
    unfold wfPlantilla at hp
    split at hp
    · rename_i pkvs
      split at hp
      · rename_i ps hps
        exact ⟨pkvs, ps, rfl, hps, by simpa [List.all_eq_true] using hp⟩
      · exact absurd hp (by simp)
    · exact absurd hp (by simp)
  obtain ⟨pkvs, ps, rfl, hpregs, hwfs⟩ := hpl
  obtain ⟨mapa, hmapa, hvals⟩ := buildMapaList_ok ps [] hwfs (by simp)
  have hbm : buildMapa (JVal.obj pkvs) = .ok mapa := by
    simp only [buildMapa]
    rw [hpregs]
    simp only [pyIter]
    exact hmapa
  have hmlook : ∀ key w, mapaGet mapa key = some w → wfQuestion w = true :=
    fun key w h => hvals w (mapaGet_mem_values mapa key w h)
  have hdl : ∃ dkvs items, data = JVal.obj dkvs ∧
      pyIter ((objGet dkvs "respuestas_preguntas").getD (.arr [])) = .ok items ∧
      ∀ it ∈ items, wfItem it = true := by
    unfold wfData at hd
    split at hd
    · rename_i dkvs
      split at hd
      · rename_i its hits
        exact ⟨dkvs, its, rfl, by rw [hits]; rfl, by simpa [List.all_eq_true] using hd⟩
      · rename_i hnone
        exact ⟨_, [], rfl, by rw [hnone]; rfl, by simp⟩
      · exact absurd hd (by simp)
    · exact absurd hd (by simp)
  obtain ⟨dkvs, items, rfl, hiter, hiwf⟩ := hdl
  obtain ⟨dep, hdep⟩ := sanitizeList_ok mapa items hiwf hmlook []
  refine ⟨JVal.obj (objSet dkvs "respuestas_preguntas" (.arr dep)), ?_⟩
  simp only [sanitize_answers, hbm, hiter, hdep]

/-- Claim C7: the base row built by build_backend_payload contains the numero
field exactly when the numero of the answer is neither None nor the empty
string; in particular a numero equal to zero is included, while a missing or
null numero and an empty-string numero are omitted. -/
theorem build_payload_numero_inclusion (rk : List (String × JVal)) (qid : JVal) :
    (objGet (rowBase rk qid) "numero" =
      if numeroOmitted (pyGet rk "numero") then none else some (pyGet rk "numero")) ∧
    numeroOmitted (JVal.num 0) = false ∧
    numeroOmitted JVal.null = true ∧
    numeroOmitted (JVal.str "") = true :=
  ⟨rowBase_numero rk qid, rfl, rfl, rfl⟩

/-- Claim C1 counterexample: a NUMERIC (type 2) raw answer that also carries
opcion_id and a non-empty opciones_ids keeps all of numero, opcion_id and
opciones_ids active after sanitization - only texto is cleared - so it is not
the case that exactly one field is active with all others cleared. -/
theorem sanitize_multiple_active_fields_cex :
    sanitize_answers
      (.obj [("respuestas_preguntas", .arr [.obj
        [("pregunta_id", JVal.str "q1"), ("tipo_pregunta_id", JVal.num 2),
         ("texto", JVal.str "hola"), ("numero", JVal.num 5),
         ("opcion_id", JVal.str "x"), ("opciones_ids", JVal.arr [JVal.str "a"])]])])
      (.obj [("preguntas", .arr [.obj
        [("id", JVal.str "q1"), ("texto", JVal.str "Edad"),
         ("tipo_pregunta_id", JVal.num 2)]])])
    = .ok (.obj [("respuestas_preguntas", .arr [.obj
        [("pregunta_id", JVal.str "q1"), ("tipo_pregunta_id", JVal.num 2),
         ("texto", JVal.null), ("numero", JVal.num 5),
         ("opcion_id", JVal.str "x"), ("opciones_ids", JVal.arr [JVal.str "a"])]])]) ∧
    pyGet [("pregunta_id", JVal.str "q1"), ("tipo_pregunta_id", JVal.num 2),
         ("texto", JVal.null), ("numero", JVal.num 5),
         ("opcion_id", JVal.str "x"), ("opciones_ids", JVal.arr [JVal.str "a"])]
      "numero" = JVal.num 5 ∧
    pyGet [("pregunta_id", JVal.str "q1"), ("tipo_pregunta_id", JVal.num 2),
         ("texto", JVal.null), ("numero", JVal.num 5),
         ("opcion_id", JVal.str "x"), ("opciones_ids", JVal.arr [JVal.str "a"])]
      "opcion_id" = JVal.str "x" ∧
    pyGet [("pregunta_id", JVal.str "q1"), ("tipo_pregunta_id", JVal.num 2),
         ("texto", JVal.null), ("numero", JVal.num 5),
         ("opcion_id", JVal.str "x"), ("opciones_ids", JVal.arr [JVal.str "a"])]
      "opciones_ids" = JVal.arr [JVal.str "a"] :=
  ⟨rfl, rfl, rfl, rfl⟩

/-- Claim C1 witness: a NUMERIC (type 2) entry goes through sanitizeItem with
numero, opcion_id and opciones_ids untouched and only texto cleared. -/
theorem sanitize_only_clears_texto_witness :
    ∃ kvs4, (JVal.obj [("pregunta_id", JVal.str "q"), ("tipo_pregunta_id", JVal.num 2),
        ("texto", JVal.null), ("numero", JVal.num 5), ("opcion_id", JVal.str "x"),
        ("opciones_ids", JVal.arr [JVal.str "a"])]) = JVal.obj kvs4 ∧
      pyGet kvs4 "numero" = pyGet [("pregunta_id", JVal.str "q"),
        ("tipo_pregunta_id", JVal.num 2), ("texto", JVal.str "hi"),
        ("numero", JVal.num 5), ("opcion_id", JVal.str "x"),
        ("opciones_ids", JVal.arr [JVal.str "a"])] "numero" ∧
      ((pyGet [("pregunta_id", JVal.str "q"), ("tipo_pregunta_id", JVal.num 2),
          ("texto", JVal.str "hi"), ("numero", JVal.num 5), ("opcion_id", JVal.str "x"),
          ("opciones_ids", JVal.arr [JVal.str "a"])] "tipo_pregunta_id" = JVal.num 3 ∨
        pyGet [("pregunta_id", JVal.str "q"), ("tipo_pregunta_id", JVal.num 2),
          ("texto", JVal.str "hi"), ("numero", JVal.num 5), ("opcion_id", JVal.str "x"),
          ("opciones_ids", JVal.arr [JVal.str "a"])] "tipo_pregunta_id" = JVal.num 4) →
        pyGet kvs4 "texto" = JVal.null) ∧
      (pyGet [("pregunta_id", JVal.str "q"), ("tipo_pregunta_id", JVal.num 2),
          ("texto", JVal.str "hi"), ("numero", JVal.num 5), ("opcion_id", JVal.str "x"),
          ("opciones_ids", JVal.arr [JVal.str "a"])] "tipo_pregunta_id" = JVal.num 2 →
        pyGet kvs4 "opcion_id" = pyGet [("pregunta_id", JVal.str "q"),
          ("tipo_pregunta_id", JVal.num 2), ("texto", JVal.str "hi"),
          ("numero", JVal.num 5), ("opcion_id", JVal.str "x"),
          ("opciones_ids", JVal.arr [JVal.str "a"])] "opcion_id" ∧
        pyGet kvs4 "opciones_ids" = pyGet [("pregunta_id", JVal.str "q"),
          ("tipo_pregunta_id", JVal.num 2), ("texto", JVal.str "hi"),
          ("numero", JVal.num 5), ("opcion_id", JVal.str "x"),
          ("opciones_ids", JVal.arr [JVal.str "a"])] "opciones_ids") :=
  sanitize_only_clears_texto []
    [("pregunta_id", JVal.str "q"), ("tipo_pregunta_id", JVal.num 2),
      ("texto", JVal.str "hi"), ("numero", JVal.num 5), ("opcion_id", JVal.str "x"),
      ("opciones_ids", JVal.arr [JVal.str "a"])]
    (JVal.obj [("pregunta_id", JVal.str "q"), ("tipo_pregunta_id", JVal.num 2),
      ("texto", JVal.null), ("numero", JVal.num 5), ("opcion_id", JVal.str "x"),
      ("opciones_ids", JVal.arr [JVal.str "a"])])
    rfl

/-- Claim C2 counterexample: a MULTI_CHOICE answer whose only provided id is
unknown normalizes to an empty opciones_ids list, yet build_backend_payload
still emits one row for it - not zero rows as the normalized list length
would demand. -/
theorem build_payload_empty_multi_choice_cex :
    sanitize_answers
      (.obj [("respuestas_preguntas", .arr [.obj
        [("pregunta_id", JVal.str "q1"), ("tipo_pregunta_id", JVal.num 4),
         ("opciones_ids", JVal.arr [JVal.str "zz"])]])])
      (.obj [("preguntas", .arr [.obj
        [("id", JVal.str "q1"), ("opciones", JVal.arr [.obj [("id", JVal.str "aa")]])]])])
    = .ok (.obj [("respuestas_preguntas", .arr [.obj
        [("pregunta_id", JVal.str "q1"), ("tipo_pregunta_id", JVal.num 4),
         ("opciones_ids", JVal.arr []), ("texto", JVal.null)]])]) ∧
    build_backend_payload (.obj [("respuestas_preguntas", .arr [.obj
        [("pregunta_id", JVal.str "q1"), ("tipo_pregunta_id", JVal.num 4),
         ("opciones_ids", JVal.arr []), ("texto", JVal.null)]])])
    = .ok (.obj [("respuestas_preguntas", .arr [.obj [("pregunta_id", JVal.str "q1")]])]) :=
  ⟨rfl, rfl⟩

/-- Claim C2 witness: a two-id multi-choice answer fans out into exactly two
rows, each the base row with opcion_id set to one id, in order. -/
theorem build_rows_multi_choice_fanout_witness :
    rowsFor (.obj [("pregunta_id", JVal.str "q"),
        ("opciones_ids", JVal.arr [JVal.str "a", JVal.str "b"])]) =
      .ok [JVal.obj [("pregunta_id", JVal.str "q"), ("opcion_id", JVal.str "a")],
           JVal.obj [("pregunta_id", JVal.str "q"), ("opcion_id", JVal.str "b")]] := by
  have h := (build_rows_multi_choice_fanout
    [("pregunta_id", JVal.str "q"), ("opciones_ids", JVal.arr [JVal.str "a", JVal.str "b"])]
    (JVal.str "q") (JVal.str "a") [JVal.str "b"] rfl).1 rfl
  rw [h.1]
  rfl

/-- Claim C3 counterexample: on a template without the preguntas key,
sanitize_answers raises (KeyError) instead of returning a result, refuting
totality over every raw-answers value and every template value. -/
theorem sanitize_error_on_missing_preguntas_cex :
    sanitize_answers (.obj []) (.obj []) = .error "KeyError: preguntas" := rfl

/-- Claim C3 witness: a well-formed template and answer set go through
sanitize_answers successfully. -/
theorem sanitize_total_on_wellformed_witness :
    ∃ out, sanitize_answers
      (.obj [("respuestas_preguntas", .arr [.obj [("pregunta_id", JVal.str "q1"),
        ("tipo_pregunta_id", JVal.num 4),
        ("opciones_ids", JVal.arr [JVal.str "aa", JVal.str "zz"])]])])
      (.obj [("preguntas", .arr [.obj [("id", JVal.str "q1"),
        ("texto", JVal.str "Edad"),
        ("opciones", JVal.arr [.obj [("id", JVal.str "aa")]])]])]) = .ok out :=
  sanitize_total_on_wellformed _ _ rfl rfl

/-- Claim C4 witness: a type 1 answer whose text echoes the question text up
to case and surrounding whitespace gets its text cleared. -/
theorem sanitize_free_text_echo_witness :
    ∃ kvs', sanitizeItem
        [(JVal.str "q1", JVal.obj [("id", JVal.str "q1"), ("texto", JVal.str "Edad")])]
        (.obj [("pregunta_id", JVal.str "q1"), ("tipo_pregunta_id", JVal.num 1),
          ("texto", JVal.str "  EDAD ")]) = .ok (some (.obj kvs')) ∧
      (pyGet kvs' "texto" = JVal.null ∨ pyGet kvs' "texto" = JVal.str "") :=
  sanitize_free_text_echo _ _ _ "  EDAD " "Edad" rfl rfl rfl
    (List.cons_ne_nil _ _) rfl rfl rfl rfl

/-- Claim C5 counterexample: a SINGLE_CHOICE answer offering zero ids but
carrying a directly supplied opcion_id keeps that opcion_id after
sanitization, so the normalized entry does have a single-choice id set. -/
theorem sanitize_single_choice_passthrough_cex :
    sanitize_answers
      (.obj [("respuestas_preguntas", .arr [.obj
        [("pregunta_id", JVal.str "q1"), ("tipo_pregunta_id", JVal.num 3),
         ("opcion_id", JVal.str "x"), ("opciones_ids", JVal.arr [])]])])
      (.obj [("preguntas", .arr [.obj
        [("id", JVal.str "q1"), ("texto", JVal.str "Q"), ("opciones", JVal.arr [])]])])
    = .ok (.obj [("respuestas_preguntas", .arr [.obj
        [("pregunta_id", JVal.str "q1"), ("tipo_pregunta_id", JVal.num 3),
         ("opcion_id", JVal.str "x"), ("opciones_ids", JVal.arr []),
         ("texto", JVal.null)]])]) ∧
    pyGet [("pregunta_id", JVal.str "q1"), ("tipo_pregunta_id", JVal.num 3),
         ("opcion_id", JVal.str "x"), ("opciones_ids", JVal.arr []),
         ("texto", JVal.null)] "opcion_id" = JVal.str "x" :=
  ⟨rfl, rfl⟩

/-- Claim C5 witness: with a two-id list the first id becomes the single
choice, the text is cleared and the list is emptied. -/
theorem sanitize_single_choice_first_id_witness :
    ∃ kvs', sanitizeItem [] (.obj [("pregunta_id", JVal.str "q"),
        ("tipo_pregunta_id", JVal.num 3),
        ("opciones_ids", JVal.arr [JVal.str "a", JVal.str "b"])]) =
        .ok (some (.obj kvs')) ∧
      pyGet kvs' "opcion_id" = JVal.str "a" ∧ pyGet kvs' "texto" = JVal.null ∧
      pyGet kvs' "opciones_ids" = JVal.arr [] :=
  (sanitize_single_choice_first_id []
    [("pregunta_id", JVal.str "q"), ("tipo_pregunta_id", JVal.num 3),
     ("opciones_ids", JVal.arr [JVal.str "a", JVal.str "b"])]
    rfl rfl rfl).1 (JVal.str "a") [JVal.str "b"] rfl

/-- Claim C6 witness: of the provided ids aa and zz only aa occurs among the
declared options, so the normalized list is exactly [aa]. -/
theorem sanitize_multi_choice_filter_witness :
    ∃ kvs', sanitizeItem
        [(JVal.str "q1", JVal.obj [("id", JVal.str "q1"),
          ("opciones", JVal.arr [JVal.obj [("id", JVal.str "aa")]])])]
        (.obj [("pregunta_id", JVal.str "q1"), ("tipo_pregunta_id", JVal.num 4),
          ("opciones_ids", JVal.arr [JVal.str "aa", JVal.str "zz"])]) =
        .ok (some (.obj kvs')) ∧
      pyGet kvs' "opciones_ids" = JVal.arr [JVal.str "aa"] := by
  obtain ⟨kvs', h, htex, hlist, hsub, hmem⟩ := sanitize_multi_choice_filter
    [(JVal.str "q1", JVal.obj [("id", JVal.str "q1"),
      ("opciones", JVal.arr [JVal.obj [("id", JVal.str "aa")]])])]
    [("pregunta_id", JVal.str "q1"), ("tipo_pregunta_id", JVal.num 4),
      ("opciones_ids", JVal.arr [JVal.str "aa", JVal.str "zz"])]
    [("id", JVal.str "q1"), ("opciones", JVal.arr [JVal.obj [("id", JVal.str "aa")]])]
    [JVal.str "aa", JVal.str "zz"] [JVal.obj [("id", JVal.str "aa")]] [JVal.str "aa"]
    rfl rfl rfl rfl (List.cons_ne_nil _ _) rfl rfl rfl
    (by intro x hx
        simp only [List.mem_cons, List.mem_singleton] at hx
        rcases hx with rfl | rfl | h
        · rfl
        · rfl
        · exact absurd h (List.not_mem_nil x))
  refine ⟨kvs', h, ?_⟩
  rw [hlist]
  rfl

/-- Claim C8 counterexample: an audio upload whose dotless filename is a bare
32-digit hexadecimal UUID passes validation even though the filename is not
of the form delivery-id.ext, refuting the exactly-when characterization based
on that form. -/
theorem stt_validate_dotless_uuid_cex :
    sttValidate "audio/wav" "550e8400e29b41d4a716446655440000" =
      .ok "550e8400e29b41d4a716446655440000" ∧
    ¬ isDeliveryFilenameForm "550e8400e29b41d4a716446655440000" := by
  refine ⟨rfl, ?_⟩
  rintro ⟨idp, ext, heq, hpar⟩
  have hdot : ("." : String).data = ['.'] := rfl
  have hmem : '.' ∈ ("550e8400e29b41d4a716446655440000" : String).data := by
    rw [heq, String.data_append, String.data_append, List.append_assoc, hdot]
    exact List.mem_append_right _ (by simp)
  revert hmem
  decide

/-- Claim C8 witness: a non-audio content type yields 400, and a dashed UUID
filename with an audio content type is accepted with the UUID as the delivery
id. -/
theorem stt_validate_400_characterization_witness :
    sttValidate "text/plain" "550e8400-e29b-41d4-a716-446655440000.wav" = .error 400 ∧
    sttValidate "audio/ogg" "550e8400-e29b-41d4-a716-446655440000.ogg" =
      .ok "550e8400-e29b-41d4-a716-446655440000" := by
  constructor
  · exact (stt_validate_400_characterization.1 "text/plain"
      "550e8400-e29b-41d4-a716-446655440000.wav").mpr (Or.inl rfl)
  · exact stt_validate_400_characterization.2.2 "audio/ogg"
      "550e8400-e29b-41d4-a716-446655440000" "ogg" rfl (by decide) (by decide)

/-- Claim C9 counterexample: a final 304 response is not a 2xx status, yet
the endpoint forwards the decoded backend body verbatim - no error field, no
captured payload - refuting the claim for non-2xx statuses below 400. -/
theorem stt_response_not2xx_not_captured_cex :
    sttResponse "e" "t" (JVal.str "payload") (.responded 304 (.ok (JVal.str "cached"))) =
      (200, .obj [("entrega_id", JVal.str "e"), ("transcripcion", JVal.str "t"),
        ("payload_enviado", JVal.str "payload"),
        ("respuesta_backend", JVal.str "cached")]) ∧
    ((304 : Nat) < 200 ∨ (300 : Nat) ≤ 304) ∧
    objGet (objKvs (JVal.str "cached")) "error" = none :=
  ⟨rfl, Or.inr (by norm_num), rfl⟩

/-- Claim C9 witness: a raised connection error is swallowed, the endpoint
answers 200 and reports the failure with the attempted payload. -/
theorem stt_submission_failure_captured_witness :
    (sttResponse "e" "t" (JVal.str "p") (.raised "boom")).1 = 200 ∧
    objGet (objKvs (sttResponse "e" "t" (JVal.str "p") (.raised "boom")).2)
      "payload_enviado" = some (JVal.str "p") ∧
    ∃ msg, submitBackend (JVal.str "p") (.raised "boom") =
      .obj [("error", JVal.str msg), ("payload_enviado", JVal.str "p")] :=
  stt_submission_failure_captured "e" "t" (JVal.str "p") (.raised "boom")
    (Or.inl ⟨"boom", rfl⟩)

/-- Claim C10 witness: the id zz does not occur among the declared options,
yet it still becomes the opcion_id of the normalized type 3 entry. -/
theorem sanitize_single_choice_unvalidated_witness :
    ∃ kvs', sanitizeItem
        [(JVal.str "q1", JVal.obj [("id", JVal.str "q1"),
          ("opciones", JVal.arr [JVal.obj [("id", JVal.str "aa")]])])]
        (.obj [("pregunta_id", JVal.str "q1"), ("tipo_pregunta_id", JVal.num 3),
          ("opciones_ids", JVal.arr [JVal.str "zz"])]) = .ok (some (.obj kvs')) ∧
      pyGet kvs' "opcion_id" = JVal.str "zz" :=
  (sanitize_single_choice_unvalidated
    [(JVal.str "q1", JVal.obj [("id", JVal.str "q1"),
      ("opciones", JVal.arr [JVal.obj [("id", JVal.str "aa")]])])]
    [("pregunta_id", JVal.str "q1"), ("tipo_pregunta_id", JVal.num 3),
      ("opciones_ids", JVal.arr [JVal.str "zz"])]
    [("id", JVal.str "q1"), ("opciones", JVal.arr [JVal.obj [("id", JVal.str "aa")]])]
    [JVal.obj [("id", JVal.str "aa")]] [JVal.str "aa"]
    rfl rfl rfl (List.cons_ne_nil _ _) rfl rfl).1
    (JVal.str "zz") [] rfl rfl rfl
